import Mathlib

/-!
# DEM-Engine host-side structures: a verification development

Shallow embedding of the host-side structs of `src/DEM/Structs.h`
(`DEMSolverStateData`, `WorkerAnomalies`, `DEMClumpTemplate`, `DEMClumpBatch`)
and proofs about their contracts.

Conventions of the embedding.

* `size_t` and `unsigned int` values are natural numbers; where the source does
  arithmetic on them the model reduces modulo `2 ^ 64` and `2 ^ 32`.
* A `std::vector<T>` is a `List T`.
* A member function that mutates `*this` is a function from the object to an
  `Outcome`: either it returned (with a value and the object after the call),
  or an exception left it (with the object as it was when the exception was
  raised).
* Running out of memory (`std::bad_alloc`, a failing `cudaMallocManaged`) is
  not modelled.
-/

namespace deme

/-! ## Exceptions and outcomes -/

/-- The exceptions raised by the modelled code. `runtime_error origin` is the
`std::runtime_error` thrown by the check of the member function `origin` (the
text of the message is not modelled); `out_of_range` is what
`std::vector::at` throws. -/
inductive Exn where
  | runtime_error (origin : String)
  | out_of_range
  deriving DecidableEq

/-- How a call on an object of type `σ` ended: it returned `val` and left the
object as `state`, or the exception `e` propagated to the caller, the object
being `state` at that moment. -/
inductive Outcome (α σ : Type) where
  | returned (val : α) (state : σ)
  | threw (e : Exn) (state : σ)
  deriving DecidableEq

namespace Outcome

variable {α σ : Type}

/-- The object after the call, whichever way the call ended. -/
def state : Outcome α σ → σ
  | returned _ s => s
  | threw _ s => s

/-- Whether the call ended with an exception. -/
def hasThrown : Outcome α σ → Bool
  | returned _ _ => false
  | threw _ _ => true

/-- Sequencing of statements: the continuation runs on the object left by a
statement that returned; an exception skips it. -/
def andThen {β : Type} (o : Outcome α σ) (k : α → σ → Outcome β σ) : Outcome β σ :=
  match o with
  | returned a s => k a s
  | threw e s => threw e s

end Outcome

/-- Model of `std::vector<T>::resize(n)` (`fill` is the value-initialised
element): the first `n` elements are kept, and the vector is padded with
`fill` up to length `n`. -/
def vectorResize {α : Type} (v : List α) (n : Nat) (fill : α) : List α :=
  v.take n ++ List.replicate (n - v.length) fill

/-! ## `DEMSolverStateData` (Structs.h, lines 97-165) -/

/-- The type `scratch_t` (`typedef char scratch_t`): one byte of scratch memory. -/
abbrev scratch_t := Nat

/-- The scratch pad of one worker thread. The six `size_t*` members point to
one managed `size_t` each; the model stores the pointed-to value. -/
structure DEMSolverStateData where
  numTempArrays : Nat
  cubScratchSpace : List scratch_t
  threadTempVectors : List (List scratch_t)
  pTempSizeVar1 : Nat
  pTempSizeVar2 : Nat
  pTempSizeVar3 : Nat
  pNumContacts : Nat
  pNumPrevContacts : Nat
  pNumPrevSpheres : Nat
  deriving DecidableEq

namespace DEMSolverStateData

/-- The constructor `DEMSolverStateData(unsigned int nArrays)`. It does not
write `*pTempSizeVar1..3`; `t1 t2 t3` are whatever the fresh allocations hold. -/
def construct (nArrays : Nat) (t1 t2 t3 : Nat) : DEMSolverStateData where
  numTempArrays := nArrays
  cubScratchSpace := []
  threadTempVectors := vectorResize [] nArrays []
  pTempSizeVar1 := t1
  pTempSizeVar2 := t2
  pTempSizeVar3 := t3
  pNumContacts := 0
  pNumPrevContacts := 0
  pNumPrevSpheres := 0

/-- The member `allocateScratchSpace(size_t sizeNeeded)`. The returned pointer
`cubScratchSpace.data()` is modelled by the buffer it points to. -/
def allocateScratchSpace (s : DEMSolverStateData) (sizeNeeded : Nat) :
    Outcome (List scratch_t) DEMSolverStateData :=
  let s1 :=
    if s.cubScratchSpace.length < sizeNeeded then
      { s with cubScratchSpace := vectorResize s.cubScratchSpace sizeNeeded 0 }
    else s
  .returned s1.cubScratchSpace s1

/-- The member `allocateTempVector(unsigned int i, size_t sizeNeeded)`. Every
access is `threadTempVectors.at(i)`, which throws `std::out_of_range` when `i`
is not an index of `threadTempVectors`. -/
def allocateTempVector (s : DEMSolverStateData) (i : Nat) (sizeNeeded : Nat) :
    Outcome (List scratch_t) DEMSolverStateData :=
  match s.threadTempVectors[i]? with
  | none => .threw .out_of_range s
  | some v =>
    let s1 :=
      if v.length < sizeNeeded then
        { s with threadTempVectors := s.threadTempVectors.set i (vectorResize v sizeNeeded 0) }
      else s
    match s1.threadTempVectors[i]? with
    | none => .threw .out_of_range s1
    | some w => .returned w s1

end DEMSolverStateData

/-- One call on the scratch pad. -/
inductive ScratchCall where
  | allocateScratchSpace (sizeNeeded : Nat)
  | allocateTempVector (i : Nat) (sizeNeeded : Nat)
  deriving DecidableEq

/-- Performs one call. -/
def ScratchCall.run (c : ScratchCall) (s : DEMSolverStateData) :
    Outcome (List scratch_t) DEMSolverStateData :=
  match c with
  | .allocateScratchSpace n => s.allocateScratchSpace n
  | .allocateTempVector i n => s.allocateTempVector i n

/-- The scratch pads observed after each call of a sequence of calls made one
after the other on `s` (a caller that catches the exception of a failed call
goes on with the pad that call left). -/
def scratchTrace (s : DEMSolverStateData) : List ScratchCall → List DEMSolverStateData
  | [] => []
  | c :: cs => (c.run s).state :: scratchTrace (c.run s).state cs

/-- The scratch pad after a sequence of `allocateScratchSpace` requests. -/
def allocateScratchSpaceAll (s : DEMSolverStateData) (requests : List Nat) : DEMSolverStateData :=
  requests.foldl (fun acc n => (acc.allocateScratchSpace n).state) s

/-- No buffer of `t` is smaller than the same buffer of `s`: the same number of
temp vectors, each at least as long, and a CUB scratch space at least as long. -/
def capacityLE (s t : DEMSolverStateData) : Prop :=
  s.cubScratchSpace.length ≤ t.cubScratchSpace.length ∧
    List.Forall₂ (fun u v => u.length ≤ v.length) s.threadTempVectors t.threadTempVectors

/-! ## `DEMClumpBatch` (Structs.h, lines 715-937)

The batch only stores and copies `float` values, so the model is parametric in
the type `F` that stands for `float`. -/

/-- The value `std::numeric_limits<family_t>::max()`, where
`typedef uint8_t family_t` (VariableTypes.h, line 44). -/
def family_t_max : Nat := 255

/-- The CUDA vector type `float3`. -/
structure float3 (F : Type) where
  x : F
  y : F
  z : F
  deriving DecidableEq

/-- The CUDA vector type `float4`. -/
structure float4 (F : Type) where
  x : F
  y : F
  z : F
  w : F
  deriving DecidableEq

/-- The helper `host_make_float3(x, y, z)`. -/
def host_make_float3 {F : Type} (x y z : F) : float3 F := ⟨x, y, z⟩

/-- The helper `host_make_float4(x, y, z, w)`. -/
def host_make_float4 {F : Type} (x y z w : F) : float4 F := ⟨x, y, z, w⟩

/-- A `std::shared_ptr<DEMClumpTemplate>`: `none` is the null pointer, `some k`
points to the template object number `k`. -/
abbrev ClumpTemplatePtr := Option Nat

/-- A `std::unordered_map<std::string, std::vector<float>>`: its entries in
iteration order, so that the head of the list is the entry `begin()` points
to. Keys are pairwise different. The standard leaves the iteration order
unspecified; no modelled function depends on the order of a stored map. -/
abbrev WildcardMap (F : Type) := List (String × List F)

namespace WildcardMap

variable {F : Type}

/-- The lookup `m.find(name)`: the array stored under `name`, if any. -/
def lookup : WildcardMap F → String → Option (List F)
  | [], _ => none
  | (k, v) :: rest, name => if k = name then some v else lookup rest name

/-- The statement `m[name] = vals`: the array under `name` is replaced, or a new
entry is made when `name` is not a key (where the new entry lands in the
iteration order is unspecified; the model appends it). -/
def assign : WildcardMap F → String → List F → WildcardMap F
  | [], name, vals => [(name, vals)]
  | (k, v) :: rest, name, vals =>
    if k = name then (k, vals) :: rest else (k, v) :: assign rest name vals

end WildcardMap

/-- The checks of `DEM/HostSideHelpers.hpp`, a header that is not among the
sources. They are free functions that get the vector by const reference and
two names, so they cannot touch a batch: a check either returns (`none`) or
throws (`some e`). -/
structure HostSideHelpers (F : Type) where
  assertThreeElements : List F → String → String → Option Exn
  assertFourElements : List F → String → String → Option Exn
  assertThreeElementsVector : List (List F) → String → String → Option Exn
  assertFourElementsVector : List (List F) → String → String → Option Exn

/-- An instance of the absent checks, for examples: each check throws exactly
when the vector (or one of its rows) has not the number of elements its name
says. -/
def HostSideHelpers.bySize (F : Type) : HostSideHelpers F where
  assertThreeElements v f _ := if v.length ≠ 3 then some (.runtime_error f) else none
  assertFourElements v f _ := if v.length ≠ 4 then some (.runtime_error f) else none
  assertThreeElementsVector v f _ :=
    if v.any (fun row => decide (row.length ≠ 3)) then some (.runtime_error f) else none
  assertFourElementsVector v f _ :=
    if v.any (fun row => decide (row.length ≠ 4)) then some (.runtime_error f) else none

/-- The class `DEMClumpBatch`, with the two members it inherits from
`DEMInitializer` (`obj_type`, an enumerator of the absent `OWNER_TYPE`, is kept
as its number). -/
structure DEMClumpBatch (F : Type) where
  obj_type : Nat
  load_order : Nat
  nExistContacts : Nat
  nClumps : Nat
  nSpheres : Nat
  family_isSpecified : Bool
  types : List ClumpTemplatePtr
  families : List Nat
  vel : List (float3 F)
  angVel : List (float3 F)
  xyz : List (float3 F)
  oriQ : List (float4 F)
  contact_pairs : List (Nat × Nat)
  contact_wildcards : WildcardMap F
  owner_wildcards : WildcardMap F
  geo_wildcards : WildcardMap F
  deriving DecidableEq

/-- A call that may have undefined behaviour: `none` when it has, else how it
ended. -/
abbrev MaybeUB (σ : Type) := Option (Outcome Unit σ)

namespace DEMClumpBatch

variable {F : Type}

/-- The constructor `DEMClumpBatch(size_t num)`. The constants
`DEFAULT_CLUMP_FAMILY_NUM` and `OWNER_TYPE::CLUMP` come from the absent
`DEM/Defines.h` and are parameters; `load_order` is not written by the
constructor and is whatever `loadOrder` the memory holds. -/
def construct [Zero F] [One F] (num : Nat) (DEFAULT_CLUMP_FAMILY_NUM CLUMP loadOrder : Nat) :
    DEMClumpBatch F where
  obj_type := CLUMP
  load_order := loadOrder
  nExistContacts := 0
  nClumps := num
  nSpheres := 0
  family_isSpecified := false
  types := vectorResize [] num none
  families := vectorResize [] num DEFAULT_CLUMP_FAMILY_NUM
  vel := vectorResize [] num (host_make_float3 0 0 0)
  angVel := vectorResize [] num (host_make_float3 0 0 0)
  xyz := vectorResize [] num (host_make_float3 0 0 0)
  oriQ := vectorResize [] num (host_make_float4 0 0 0 1)
  contact_pairs := []
  contact_wildcards := []
  owner_wildcards := []
  geo_wildcards := []

/-- The getter `GetNumClumps()`. -/
def GetNumClumps (b : DEMClumpBatch F) : Nat := b.nClumps

/-- The getter `GetNumSpheres()`. -/
def GetNumSpheres (b : DEMClumpBatch F) : Nat := b.nSpheres

/-- The getter `GetNumContacts()`. -/
def GetNumContacts (b : DEMClumpBatch F) : Nat := b.nExistContacts

/-- The private check `assertLength(len, name)`. -/
def assertLength (b : DEMClumpBatch F) (len : Nat) (name : String) :
    Outcome Unit (DEMClumpBatch F) :=
  if len ≠ b.nClumps then .threw (.runtime_error name) b else .returned () b

/-- The setter `SetTypes(const std::vector<std::shared_ptr<DEMClumpTemplate>>&)`. -/
def SetTypes (b : DEMClumpBatch F) (input : List ClumpTemplatePtr) :
    Outcome Unit (DEMClumpBatch F) :=
  (b.assertLength input.length "SetTypes").andThen fun _ b1 =>
    .returned () { b1 with types := input }

/-- The setter `SetTypes(const std::shared_ptr<DEMClumpTemplate>&)`. -/
def SetTypes_one (b : DEMClumpBatch F) (input : ClumpTemplatePtr) :
    Outcome Unit (DEMClumpBatch F) :=
  b.SetTypes (List.replicate b.nClumps input)

/-- The setter `SetType(const std::shared_ptr<DEMClumpTemplate>&)`. -/
def SetType (b : DEMClumpBatch F) (input : ClumpTemplatePtr) :
    Outcome Unit (DEMClumpBatch F) :=
  b.SetTypes (List.replicate b.nClumps input)

/-- Reads `row[0], row[1], row[2]` into a `float3`; `none` when one of the
reads is past the end of `row` (undefined behaviour of `operator[]`). -/
def readFloat3 (row : List F) : Option (float3 F) :=
  match row[0]?, row[1]?, row[2]? with
  | some x, some y, some z => some (host_make_float3 x y z)
  | _, _, _ => none

/-- Reads `row[0], ..., row[3]` into a `float4`; `none` when one of the reads
is past the end of `row`. -/
def readFloat4 (row : List F) : Option (float4 F) :=
  match row[0]?, row[1]?, row[2]?, row[3]? with
  | some x, some y, some z, some w => some (host_make_float4 x y z w)
  | _, _, _, _ => none

/-- The setter `SetPos(const std::vector<float3>&)`. -/
def SetPos (b : DEMClumpBatch F) (input : List (float3 F)) : Outcome Unit (DEMClumpBatch F) :=
  (b.assertLength input.length "SetPos").andThen fun _ b1 =>
    .returned () { b1 with xyz := input }

/-- The setter `SetPos(float3)`. -/
def SetPos_float3 (b : DEMClumpBatch F) (input : float3 F) : Outcome Unit (DEMClumpBatch F) :=
  b.SetPos (List.replicate b.nClumps input)

/-- The setter `SetPos(const std::vector<float>&)`. -/
def SetPos_floats (h : HostSideHelpers F) (b : DEMClumpBatch F) (input : List F) :
    MaybeUB (DEMClumpBatch F) :=
  match h.assertThreeElements input "SetPos" "input" with
  | some e => some (.threw e b)
  | none => (readFloat3 input).map fun v => b.SetPos_float3 v

/-- The setter `SetPos(const std::vector<std::vector<float>>&)`. -/
def SetPos_rows (h : HostSideHelpers F) (b : DEMClumpBatch F) (input : List (List F)) :
    MaybeUB (DEMClumpBatch F) :=
  match h.assertThreeElementsVector input "SetPos" "input" with
  | some e => some (.threw e b)
  | none => (input.mapM readFloat3).map fun pos_xyz => b.SetPos pos_xyz

/-- The setter `SetVel(const std::vector<float3>&)`. -/
def SetVel (b : DEMClumpBatch F) (input : List (float3 F)) : Outcome Unit (DEMClumpBatch F) :=
  (b.assertLength input.length "SetVel").andThen fun _ b1 =>
    .returned () { b1 with vel := input }

/-- The setter `SetVel(float3)`. -/
def SetVel_float3 (b : DEMClumpBatch F) (input : float3 F) : Outcome Unit (DEMClumpBatch F) :=
  b.SetVel (List.replicate b.nClumps input)

/-- The setter `SetVel(const std::vector<float>&)`. -/
def SetVel_floats (h : HostSideHelpers F) (b : DEMClumpBatch F) (input : List F) :
    MaybeUB (DEMClumpBatch F) :=
  match h.assertThreeElements input "SetVel" "input" with
  | some e => some (.threw e b)
  | none => (readFloat3 input).map fun v => b.SetVel_float3 v

/-- The setter `SetVel(const std::vector<std::vector<float>>&)`. -/
def SetVel_rows (h : HostSideHelpers F) (b : DEMClumpBatch F) (input : List (List F)) :
    MaybeUB (DEMClumpBatch F) :=
  match h.assertThreeElementsVector input "SetVel" "input" with
  | some e => some (.threw e b)
  | none => (input.mapM readFloat3).map fun vel_xyz => b.SetVel vel_xyz

/-- The setter `SetAngVel(const std::vector<float3>&)`. -/
def SetAngVel (b : DEMClumpBatch F) (input : List (float3 F)) : Outcome Unit (DEMClumpBatch F) :=
  (b.assertLength input.length "SetAngVel").andThen fun _ b1 =>
    .returned () { b1 with angVel := input }

/-- The setter `SetAngVel(float3)`. -/
def SetAngVel_float3 (b : DEMClumpBatch F) (input : float3 F) : Outcome Unit (DEMClumpBatch F) :=
  b.SetAngVel (List.replicate b.nClumps input)

/-- The setter `SetAngVel(const std::vector<float>&)`. -/
def SetAngVel_floats (h : HostSideHelpers F) (b : DEMClumpBatch F) (input : List F) :
    MaybeUB (DEMClumpBatch F) :=
  match h.assertThreeElements input "SetAngVel" "input" with
  | some e => some (.threw e b)
  | none => (readFloat3 input).map fun v => b.SetAngVel_float3 v

/-- The setter `SetAngVel(const std::vector<std::vector<float>>&)`. -/
def SetAngVel_rows (h : HostSideHelpers F) (b : DEMClumpBatch F) (input : List (List F)) :
    MaybeUB (DEMClumpBatch F) :=
  match h.assertThreeElementsVector input "SetAngVel" "input" with
  | some e => some (.threw e b)
  | none => (input.mapM readFloat3).map fun vel_xyz => b.SetAngVel vel_xyz

/-- The setter `SetOriQ(const std::vector<float4>&)`. -/
def SetOriQ (b : DEMClumpBatch F) (input : List (float4 F)) : Outcome Unit (DEMClumpBatch F) :=
  (b.assertLength input.length "SetOriQ").andThen fun _ b1 =>
    .returned () { b1 with oriQ := input }

/-- The setter `SetOriQ(float4)`. -/
def SetOriQ_float4 (b : DEMClumpBatch F) (input : float4 F) : Outcome Unit (DEMClumpBatch F) :=
  b.SetOriQ (List.replicate b.nClumps input)

/-- The setter `SetOriQ(const std::vector<float>&)`. -/
def SetOriQ_floats (h : HostSideHelpers F) (b : DEMClumpBatch F) (input : List F) :
    MaybeUB (DEMClumpBatch F) :=
  match h.assertFourElements input "SetOriQ" "input" with
  | some e => some (.threw e b)
  | none => (readFloat4 input).map fun q => b.SetOriQ_float4 q

/-- The setter `SetOriQ(const std::vector<std::vector<float>>&)`. -/
def SetOriQ_rows (h : HostSideHelpers F) (b : DEMClumpBatch F) (input : List (List F)) :
    MaybeUB (DEMClumpBatch F) :=
  match h.assertFourElementsVector input "SetOriQ" "input" with
  | some e => some (.threw e b)
  | none => (input.mapM readFloat4).map fun Q => b.SetOriQ Q

/-- The setter `SetFamilies(const std::vector<unsigned int>&)`. -/
def SetFamilies (b : DEMClumpBatch F) (input : List Nat) : Outcome Unit (DEMClumpBatch F) :=
  (b.assertLength input.length "SetFamilies").andThen fun _ b1 =>
    if input.any (fun i => decide (i > family_t_max)) then
      .threw (.runtime_error "SetFamilies") b1
    else
      .returned () { b1 with families := input, family_isSpecified := true }

/-- The setter `SetFamilies(unsigned int)`. -/
def SetFamilies_one (b : DEMClumpBatch F) (input : Nat) : Outcome Unit (DEMClumpBatch F) :=
  b.SetFamilies (List.replicate b.nClumps input)

/-- The setter `SetFamily(unsigned int)`. -/
def SetFamily (b : DEMClumpBatch F) (input : Nat) : Outcome Unit (DEMClumpBatch F) :=
  b.SetFamilies (List.replicate b.nClumps input)

/-- The setter `SetExistingContacts(pairs)`. -/
def SetExistingContacts (b : DEMClumpBatch F) (pairs : List (Nat × Nat)) :
    Outcome Unit (DEMClumpBatch F) :=
  .returned () { b with contact_pairs := pairs, nExistContacts := pairs.length }

/-- The setter `SetExistingContactWildcards(wildcards)`. It reads
`wildcards.begin()->second`, which on an empty map dereferences the end
iterator: undefined behaviour. -/
def SetExistingContactWildcards (b : DEMClumpBatch F) (wildcards : WildcardMap F) :
    MaybeUB (DEMClumpBatch F) :=
  match wildcards with
  | [] => none
  | first :: _ =>
    if first.2.length ≠ b.nExistContacts then
      some (.threw (.runtime_error "SetExistingContactWildcards") b)
    else
      some (.returned () { b with contact_wildcards := wildcards })

/-- The setter `AddExistingContactWildcard(name, vals)`. -/
def AddExistingContactWildcard (b : DEMClumpBatch F) (name : String) (vals : List F) :
    Outcome Unit (DEMClumpBatch F) :=
  if vals.length ≠ b.nClumps then
    .threw (.runtime_error "AddExistingContactWildcard") b
  else
    .returned () { b with contact_wildcards := b.contact_wildcards.assign name vals }

/-- The setter `SetOwnerWildcards(wildcards)`; on an empty map, undefined
behaviour as in `SetExistingContactWildcards`. -/
def SetOwnerWildcards (b : DEMClumpBatch F) (wildcards : WildcardMap F) :
    MaybeUB (DEMClumpBatch F) :=
  match wildcards with
  | [] => none
  | first :: _ =>
    if first.2.length ≠ b.nClumps then
      some (.threw (.runtime_error "SetOwnerWildcards") b)
    else
      some (.returned () { b with owner_wildcards := wildcards })

/-- The setter `AddOwnerWildcard(name, const std::vector<float>&)`. -/
def AddOwnerWildcard (b : DEMClumpBatch F) (name : String) (vals : List F) :
    Outcome Unit (DEMClumpBatch F) :=
  if vals.length ≠ b.nClumps then
    .threw (.runtime_error "AddOwnerWildcard") b
  else
    .returned () { b with owner_wildcards := b.owner_wildcards.assign name vals }

/-- The setter `AddOwnerWildcard(name, float)`. -/
def AddOwnerWildcard_one (b : DEMClumpBatch F) (name : String) (val : F) :
    Outcome Unit (DEMClumpBatch F) :=
  b.AddOwnerWildcard name (List.replicate b.nClumps val)

/-- The setter `SetGeometryWildcards(wildcards)`; on an empty map, undefined
behaviour as in `SetExistingContactWildcards`. -/
def SetGeometryWildcards (b : DEMClumpBatch F) (wildcards : WildcardMap F) :
    MaybeUB (DEMClumpBatch F) :=
  match wildcards with
  | [] => none
  | first :: _ =>
    if first.2.length ≠ b.nSpheres then
      some (.threw (.runtime_error "SetGeometryWildcards") b)
    else
      some (.returned () { b with geo_wildcards := wildcards })

/-- The setter `AddGeometryWildcard(name, const std::vector<float>&)`. -/
def AddGeometryWildcard (b : DEMClumpBatch F) (name : String) (vals : List F) :
    Outcome Unit (DEMClumpBatch F) :=
  if vals.length ≠ b.nSpheres then
    .threw (.runtime_error "AddGeometryWildcard") b
  else
    .returned () { b with geo_wildcards := b.geo_wildcards.assign name vals }

/-- The setter `AddGeometryWildcard(name, float)`. -/
def AddGeometryWildcard_one (b : DEMClumpBatch F) (name : String) (val : F) :
    Outcome Unit (DEMClumpBatch F) :=
  b.AddGeometryWildcard name (List.replicate b.nSpheres val)

end DEMClumpBatch

/-- One call of a setter of `DEMClumpBatch`, with its arguments. -/
inductive ClumpBatchCall (F : Type) where
  | SetTypes (input : List ClumpTemplatePtr)
  | SetTypes_one (input : ClumpTemplatePtr)
  | SetType (input : ClumpTemplatePtr)
  | SetPos (input : List (float3 F))
  | SetPos_float3 (input : float3 F)
  | SetPos_floats (input : List F)
  | SetPos_rows (input : List (List F))
  | SetVel (input : List (float3 F))
  | SetVel_float3 (input : float3 F)
  | SetVel_floats (input : List F)
  | SetVel_rows (input : List (List F))
  | SetAngVel (input : List (float3 F))
  | SetAngVel_float3 (input : float3 F)
  | SetAngVel_floats (input : List F)
  | SetAngVel_rows (input : List (List F))
  | SetOriQ (input : List (float4 F))
  | SetOriQ_float4 (input : float4 F)
  | SetOriQ_floats (input : List F)
  | SetOriQ_rows (input : List (List F))
  | SetFamilies (input : List Nat)
  | SetFamilies_one (input : Nat)
  | SetFamily (input : Nat)
  | SetExistingContacts (pairs : List (Nat × Nat))
  | SetExistingContactWildcards (wildcards : WildcardMap F)
  | AddExistingContactWildcard (name : String) (vals : List F)
  | SetOwnerWildcards (wildcards : WildcardMap F)
  | AddOwnerWildcard (name : String) (vals : List F)
  | AddOwnerWildcard_one (name : String) (val : F)
  | SetGeometryWildcards (wildcards : WildcardMap F)
  | AddGeometryWildcard (name : String) (vals : List F)
  | AddGeometryWildcard_one (name : String) (val : F)

/-- Performs one setter call on the batch `b`. -/
def ClumpBatchCall.run {F : Type} (h : HostSideHelpers F) (c : ClumpBatchCall F)
    (b : DEMClumpBatch F) : MaybeUB (DEMClumpBatch F) :=
  match c with
  | .SetTypes input => some (b.SetTypes input)
  | .SetTypes_one input => some (b.SetTypes_one input)
  | .SetType input => some (b.SetType input)
  | .SetPos input => some (b.SetPos input)
  | .SetPos_float3 input => some (b.SetPos_float3 input)
  | .SetPos_floats input => b.SetPos_floats h input
  | .SetPos_rows input => b.SetPos_rows h input
  | .SetVel input => some (b.SetVel input)
  | .SetVel_float3 input => some (b.SetVel_float3 input)
  | .SetVel_floats input => b.SetVel_floats h input
  | .SetVel_rows input => b.SetVel_rows h input
  | .SetAngVel input => some (b.SetAngVel input)
  | .SetAngVel_float3 input => some (b.SetAngVel_float3 input)
  | .SetAngVel_floats input => b.SetAngVel_floats h input
  | .SetAngVel_rows input => b.SetAngVel_rows h input
  | .SetOriQ input => some (b.SetOriQ input)
  | .SetOriQ_float4 input => some (b.SetOriQ_float4 input)
  | .SetOriQ_floats input => b.SetOriQ_floats h input
  | .SetOriQ_rows input => b.SetOriQ_rows h input
  | .SetFamilies input => some (b.SetFamilies input)
  | .SetFamilies_one input => some (b.SetFamilies_one input)
  | .SetFamily input => some (b.SetFamily input)
  | .SetExistingContacts pairs => some (b.SetExistingContacts pairs)
  | .SetExistingContactWildcards wildcards => b.SetExistingContactWildcards wildcards
  | .AddExistingContactWildcard name vals => some (b.AddExistingContactWildcard name vals)
  | .SetOwnerWildcards wildcards => b.SetOwnerWildcards wildcards
  | .AddOwnerWildcard name vals => some (b.AddOwnerWildcard name vals)
  | .AddOwnerWildcard_one name val => some (b.AddOwnerWildcard_one name val)
  | .SetGeometryWildcards wildcards => b.SetGeometryWildcards wildcards
  | .AddGeometryWildcard name vals => some (b.AddGeometryWildcard name vals)
  | .AddGeometryWildcard_one name val => some (b.AddGeometryWildcard_one name val)

/-! ## Concrete batches used in the examples -/

/-- A fresh batch of `num` clumps over integer-valued floats, the absent
constants and the unwritten `load_order` being 0. -/
def freshBatch (num : Nat) : DEMClumpBatch Int := DEMClumpBatch.construct num 0 0 0

/-- A batch of two clumps that was given one existing contact pair, `(0, 1)`. -/
def batchWithOneContact : DEMClumpBatch Int :=
  ((freshBatch 2).SetExistingContacts [(0, 1)]).state

/-- A batch of two clumps of three spheres each: `nSpheres` is a public member,
written by the code that loads the clumps. -/
def batchWithSixSpheres : DEMClumpBatch Int := { freshBatch 2 with nSpheres := 6 }

/-- The final batch after a sequence of setter calls made one after the other
(a caller that catches the exception of a failed call goes on with the batch
that call left); `none` when one of the calls has undefined behaviour. -/
def ClumpBatchCall.runAll {F : Type} (h : HostSideHelpers F) :
    List (ClumpBatchCall F) → DEMClumpBatch F → Option (DEMClumpBatch F)
  | [], b => some b
  | c :: cs, b =>
    match c.run h b with
    | none => none
    | some o => ClumpBatchCall.runAll h cs o.state

/-- The scratch pad after a sequence of calls made one after the other. -/
def scratchAfter (s : DEMSolverStateData) (calls : List ScratchCall) : DEMSolverStateData :=
  calls.foldl (fun acc c => (c.run acc).state) s

/-! ## `WorkerAnomalies` (Structs.h, lines 392-400) -/

/-- The anomaly log of a worker. -/
structure WorkerAnomalies where
  over_max_vel : Bool
  deriving DecidableEq

namespace WorkerAnomalies

/-- The constructor `WorkerAnomalies()`, with the default member initialiser
`over_max_vel = false`. -/
def construct : WorkerAnomalies where
  over_max_vel := false

/-- The member `Clear()`. -/
def Clear (_a : WorkerAnomalies) : Outcome Unit WorkerAnomalies :=
  .returned () { over_max_vel := false }

end WorkerAnomalies

/-! ## `DEMClumpTemplate` (Structs.h, lines 569-702)

`float` and `double` arithmetic is taken exactly: `F` carries the numbers, the
conversions between `float` and `double` are the identity and `*` is the
multiplication of `F`. -/

/-- A `std::shared_ptr<DEMMaterial>`: `none` is the null pointer, `some k`
points to the material object number `k`. -/
abbrev MaterialPtr := Option Nat

/-- Modelled from the spec: the compound assignment `float3 *= float` of the
absent `nvmath/helper_math.cuh`, which multiplies every coordinate by the
scalar. -/
def float3.mulAssign {F : Type} [Mul F] (a : float3 F) (b : F) : float3 F :=
  ⟨a.x * b, a.y * b, a.z * b⟩

/-- The class `DEMClumpTemplate`. -/
structure DEMClumpTemplate (F : Type) where
  mass : F
  MOI : float3 F
  radii : List F
  relPos : List (float3 F)
  materials : List MaterialPtr
  nComp : Nat
  mark : Nat
  isBigClump : Bool
  m_name : String
  volume : F
  deriving DecidableEq

namespace DEMClumpTemplate

variable {F : Type}

/-- The private check `assertLength(len, name)`. The second component of the
state is what was written to `std::cerr`: one entry, the `name` of the call,
for each warning about a template of 0 sphere components. -/
def assertLength (t : DEMClumpTemplate F) (cerr : List String) (len : Nat) (name : String) :
    Outcome Unit (DEMClumpTemplate F × List String) :=
  let cerr1 := if t.nComp = 0 then cerr ++ [name] else cerr
  if len ≠ t.nComp then .threw (.runtime_error name) (t, cerr1) else .returned () (t, cerr1)

/-- The setter `SetMaterial(const std::vector<std::shared_ptr<DEMMaterial>>&)`. -/
def SetMaterial (t : DEMClumpTemplate F) (cerr : List String) (input : List MaterialPtr) :
    Outcome Unit (DEMClumpTemplate F × List String) :=
  (t.assertLength cerr input.length "SetMaterial").andThen fun _ st =>
    .returned () ({ st.1 with materials := input }, st.2)

/-- The setter `SetMaterial(const std::shared_ptr<DEMMaterial>&)`. -/
def SetMaterial_one (t : DEMClumpTemplate F) (cerr : List String) (input : MaterialPtr) :
    Outcome Unit (DEMClumpTemplate F × List String) :=
  t.SetMaterial cerr (List.replicate t.nComp input)

/-- The member `Scale(float s)`. -/
def Scale [Mul F] (t : DEMClumpTemplate F) (s : F) : Outcome Unit (DEMClumpTemplate F) :=
  let t1 := { t with relPos := t.relPos.map fun pos => float3.mulAssign pos s }
  let t2 := { t1 with radii := t1.radii.map fun rad => rad * s }
  let t3 := { t2 with mass := t2.mass * (s * s * s) }
  let t4 := { t3 with MOI := float3.mulAssign t3.MOI (s * s * s * s * s) }
  .returned () { t4 with volume := t4.volume * (s * s * s) }

end DEMClumpTemplate

/-- The length invariant of a batch made for `num` clumps: `nClumps` is `num`
and each of the six per-clump vectors has `num` elements. -/
def DEMClumpBatch.lengthsAgree {F : Type} (num : Nat) (b : DEMClumpBatch F) : Prop :=
  b.nClumps = num ∧ b.types.length = num ∧ b.families.length = num ∧ b.vel.length = num ∧
    b.angVel.length = num ∧ b.xyz.length = num ∧ b.oriQ.length = num

/-- A template of two components, for the examples: masses and lengths are
integers. -/
def twoSphereTemplate : DEMClumpTemplate Int where
  mass := 3
  MOI := ⟨1, 2, 4⟩
  radii := [1, 2]
  relPos := [⟨0, 0, 0⟩, ⟨1, 0, -1⟩]
  materials := [some 0, some 0]
  nComp := 2
  mark := 0
  isBigClump := false
  m_name := "NULL"
  volume := 5

/-- The batch `freshBatch 2` after a rejected `SetFamilies({256, 1})`, an
accepted `SetPos({1, 2, 3})` and an accepted `SetOwnerWildcards`. -/
def batchAfterThreeCalls : DEMClumpBatch Int :=
  { freshBatch 2 with xyz := [⟨1, 2, 3⟩, ⟨1, 2, 3⟩], owner_wildcards := [("mu", [5, 6])] }

/-! ## `DEMClumpTemplate`: loading and moving the components

`nComp` is an `unsigned int`; the arithmetic on it is modulo `2 ^ 32`. -/

/-- What the reader of the absent `core/utils/csv.hpp` delivers for one file:
the values of `pos` and `r` after each successful `read_row`, and then either
the end of the file (`none`) or an exception thrown by the reader (by the
constructor or `read_header` when there is no row before it). -/
structure CsvRead (F : Type) where
  rows : List (float3 F × F)
  failure : Option Exn

/-- The two frame transforms of the absent `DEM/HostSideHelpers.hpp`: each
gets the position by reference and rewrites it; the model gives the new
position. -/
structure FrameTransforms (F : Type) where
  applyFrameTransformGlobalToLocal : float3 F → float3 F → float4 F → float3 F
  applyFrameTransformLocalToGlobal : float3 F → float3 F → float4 F → float3 F

namespace DEMClumpTemplate

variable {F : Type}

/-- One turn of the loop of `ReadComponentFromFile`: two `push_back` and
`count++` on the `unsigned int` counter. -/
def readRow (acc : DEMClumpTemplate F × Nat) (row : float3 F × F) : DEMClumpTemplate F × Nat :=
  ({ acc.1 with radii := acc.1.radii ++ [row.2], relPos := acc.1.relPos ++ [row.1] },
    (acc.2 + 1) % 2 ^ 32)

/-- The member `ReadComponentFromFile(filename, x_id, y_id, z_id, r_id)`, on
what the reader delivers for the file. -/
def ReadComponentFromFile (t : DEMClumpTemplate F) (file : CsvRead F) :
    Outcome Int (DEMClumpTemplate F) :=
  let acc := file.rows.foldl readRow (t, 0)
  match file.failure with
  | some e => .threw e acc.1
  | none => .returned 0 { acc.1 with nComp := (acc.1.nComp + acc.2) % 2 ^ 32 }

/-- The member `InformCentroidPrincipal(float3 center, float4 prin_Q)`. -/
def InformCentroidPrincipal (fr : FrameTransforms F) (t : DEMClumpTemplate F)
    (center : float3 F) (prin_Q : float4 F) : Outcome Unit (DEMClumpTemplate F) :=
  .returned ()
    { t with relPos := t.relPos.map fun pos =>
        fr.applyFrameTransformGlobalToLocal pos center prin_Q }

/-- The member `InformCentroidPrincipal(const std::vector<float>&, const
std::vector<float>&)`. -/
def InformCentroidPrincipal_floats (h : HostSideHelpers F) (fr : FrameTransforms F)
    (t : DEMClumpTemplate F) (center prin_Q : List F) : MaybeUB (DEMClumpTemplate F) :=
  match h.assertThreeElements center "InformCentroidPrincipal" "center" with
  | some e => some (.threw e t)
  | none =>
    match h.assertFourElements prin_Q "InformCentroidPrincipal" "prin_Q" with
    | some e => some (.threw e t)
    | none =>
      match DEMClumpBatch.readFloat3 center, DEMClumpBatch.readFloat4 prin_Q with
      | some c, some q => some (t.InformCentroidPrincipal fr c q)
      | _, _ => none

/-- The member `Move(float3 vec, float4 rot_Q)`. -/
def Move (fr : FrameTransforms F) (t : DEMClumpTemplate F) (vec : float3 F)
    (rot_Q : float4 F) : Outcome Unit (DEMClumpTemplate F) :=
  .returned ()
    { t with relPos := t.relPos.map fun pos =>
        fr.applyFrameTransformLocalToGlobal pos vec rot_Q }

/-- The member `Move(const std::vector<float>&, const std::vector<float>&)`. -/
def Move_floats (h : HostSideHelpers F) (fr : FrameTransforms F) (t : DEMClumpTemplate F)
    (vec rot_Q : List F) : MaybeUB (DEMClumpTemplate F) :=
  match h.assertThreeElements vec "Move" "vec" with
  | some e => some (.threw e t)
  | none =>
    match h.assertFourElements rot_Q "Move" "rot_Q" with
    | some e => some (.threw e t)
    | none =>
      match DEMClumpBatch.readFloat3 vec, DEMClumpBatch.readFloat4 rot_Q with
      | some v, some q => some (t.Move fr v q)
      | _, _ => none

/-- The component-count invariant: `radii.size() == relPos.size() == nComp`. -/
def countsAgree (t : DEMClumpTemplate F) : Prop :=
  t.radii.length = t.nComp ∧ t.relPos.length = t.nComp

end DEMClumpTemplate

/-- A file of two rows, read to its end. -/
def twoRowFile : CsvRead Int where
  rows := [(⟨1, 1, 1⟩, 3), (⟨2, 0, 2⟩, 4)]
  failure := none

/-- A file of one row, read to its end. -/
def oneRowFile : CsvRead Int where
  rows := [(⟨0, 0, 0⟩, 1)]
  failure := none

/-- A template with `2 ^ 32 - 1` components, the largest `nComp`. -/
def fullTemplate : DEMClumpTemplate Int :=
  { twoSphereTemplate with
    radii := List.replicate (2 ^ 32 - 1) 1
    relPos := List.replicate (2 ^ 32 - 1) ⟨0, 0, 0⟩
    materials := List.replicate (2 ^ 32 - 1) none
    nComp := 2 ^ 32 - 1 }

/-! ## Tracked resize (Structs.h, lines 331-350)

`size_t` has 64 bits; its arithmetic is modulo `2 ^ 64`. -/

/-- The difference `a - b` of two `size_t` values. -/
def size_t_sub (a b : Nat) : Nat := (a + (2 ^ 64 - b % 2 ^ 64)) % 2 ^ 64

/-- The product `a * b` of two `size_t` values. -/
def size_t_mul (a b : Nat) : Nat := (a * b) % 2 ^ 64

/-- The sum `a + b` of two `size_t` values. -/
def size_t_add (a b : Nat) : Nat := (a + b) % 2 ^ 64

/-- The value of `sizeof(float)`. -/
def sizeof_float : Nat := 4

/-- The macro `DEME_TRACKED_RESIZE(vec, newsize, val)`, with `item_size` the
value of `sizeof(decltype(vec)::value_type)`. The result is the vector and the
counter `m_approx_bytes_used` after the block; the counter is declared outside
the sources and is taken to be a `size_t`. -/
def DEME_TRACKED_RESIZE {α : Type} (item_size : Nat) (vec : List α)
    (m_approx_bytes_used : Nat) (newsize : Nat) (val : α) : List α × Nat :=
  let old_size := vec.length
  let vec1 := vectorResize vec newsize val
  let new_size := vec1.length
  let byte_delta := size_t_mul item_size (size_t_sub new_size old_size)
  (vec1, size_t_add m_approx_bytes_used byte_delta)

/-- The macro `DEME_TRACKED_RESIZE_FLOAT(vec, newsize, val)`. -/
def DEME_TRACKED_RESIZE_FLOAT {α : Type} (vec : List α) (m_approx_bytes_used : Nat)
    (newsize : Nat) (val : α) : List α × Nat :=
  let old_size := vec.length
  let vec1 := vectorResize vec newsize val
  let new_size := vec1.length
  let byte_delta := size_t_mul sizeof_float (size_t_sub new_size old_size)
  (vec1, size_t_add m_approx_bytes_used byte_delta)

/-! ## The drum demo (DEMdemo_Granular_PlasticSphereDrum.cpp) -/

/-- The vector `angular` of `runDEME` (line 75), initialised with the one
literal `3.60`. -/
def runDEME_angular : List ℚ := [3.60]

/-- The indices at which `runDEME` reads `angular` (lines 106-108), in order. -/
def runDEME_angularReads : List Nat := [0, 1, 2]

/-- The read `v[i]` of `std::vector::operator[]`: `none` when `i` is not an
index of `v` (the read is out of bounds, undefined behaviour). -/
def vectorRead {α : Type} (v : List α) (i : Nat) : Option α := v[i]?

/-! ## `kTStateParams` (Structs.h, lines 167-192)

A `float` member holds the `float` nearest to its decimal initialiser; the
model stores that value as a rational number. -/

/-- The struct `kTStateParams`. -/
structure kTStateParams where
  binTopChangeRate : ℚ
  binCurrentChangeRate : ℚ
  binChangeRateAcc : ℚ
  binChangeObserveSteps : Nat
  binChangeUpperSafety : ℚ
  binChangeLowerSafety : ℚ
  maxSphFoundInBin : Nat
  maxTriFoundInBin : Nat
  numBins : Nat
  avgCntsPerSphere : ℚ

/-- A default-initialised `kTStateParams`. The members `maxSphFoundInBin` and
`maxTriFoundInBin` have no initialiser and hold whatever `maxSph`, `maxTri`
the memory holds. The floats are `float(0.05) = 13421773 / 2^28`,
`float(0.1) = 13421773 / 2^27`, `float(0.5) = 1 / 2` and
`float(0.85) = 7130317 / 2^23`. -/
def kTStateParams.construct (maxSph maxTri : Nat) : kTStateParams where
  binTopChangeRate := 13421773 / 268435456
  binCurrentChangeRate := 0
  binChangeRateAcc := 13421773 / 134217728
  binChangeObserveSteps := 5
  binChangeUpperSafety := 1 / 2
  binChangeLowerSafety := 7130317 / 8388608
  maxSphFoundInBin := maxSph
  maxTriFoundInBin := maxTri
  numBins := 0
  avgCntsPerSphere := 0

/-- An instance of the absent frame transforms, for examples: both leave the
position where it is. -/
def FrameTransforms.identity (F : Type) : FrameTransforms F where
  applyFrameTransformGlobalToLocal pos _ _ := pos
  applyFrameTransformLocalToGlobal pos _ _ := pos

/-! ## `pretty_format_bytes` (Structs.h, lines 194-213) -/

/-- The value of the conversion `float(n)` of a `size_t` value `n`, which is a
natural number: `n` itself when it has at most 24 significant bits, else `n`
rounded to 24 significant bits, to the nearest such number and to the one with
an even last bit in case of a tie (the rounding of the hardware conversion). -/
def floatOfNat (n : Nat) : Nat :=
  if n < 2 ^ 24 then n
  else
    let e := Nat.log2 n - 23
    let q := n / 2 ^ e
    let r := n % 2 ^ e
    let half := 2 ^ (e - 1)
    if r < half ∨ (r = half ∧ q % 2 = 0) then q * 2 ^ e else (q + 1) * 2 ^ e

/-- What `pretty_format_bytes` writes to its stream: a `float` followed by
" GiB", " MiB" or " KiB", or the byte count followed by " B". -/
inductive PrettyBytes where
  | GiB (gibival : ℚ)
  | MiB (mebival : ℚ)
  | KiB (kibival : ℚ)
  | B (bytes : Nat)
  deriving DecidableEq

/-- The unit that ends the text. -/
def PrettyBytes.unit : PrettyBytes → String
  | .GiB _ => " GiB"
  | .MiB _ => " MiB"
  | .KiB _ => " KiB"
  | .B _ => " B"

/-- The text `ret.str()`, given how the stream prints a `float`
(`showFloat`); the byte count is printed in decimal digits. -/
def PrettyBytes.str (showFloat : ℚ → String) : PrettyBytes → String
  | .GiB v => showFloat v ++ " GiB"
  | .MiB v => showFloat v ++ " MiB"
  | .KiB v => showFloat v ++ " KiB"
  | .B n => toString n ++ " B"

/-- The function `pretty_format_bytes(size_t bytes)`. The three divisors are
powers of two, so they convert to `float` exactly and the three `float`
quotients are exact. -/
def pretty_format_bytes (bytes : Nat) : PrettyBytes :=
  let KIBI : Nat := 1024
  let MEBI : Nat := KIBI * KIBI
  let GIBI : Nat := KIBI * KIBI * KIBI
  let gibival : ℚ := (floatOfNat bytes : ℚ) / (GIBI : ℚ)
  let mebival : ℚ := (floatOfNat bytes : ℚ) / (MEBI : ℚ)
  let kibival : ℚ := (floatOfNat bytes : ℚ) / (KIBI : ℚ)
  if gibival > 1 then .GiB gibival
  else if mebival > 1 then .MiB mebival
  else if kibival > 1 then .KiB kibival
  else .B bytes

/-! ## Lemmas on vectors -/

theorem length_vectorResize {α : Type} (v : List α) (n : Nat) (fill : α) :
    (vectorResize v n fill).length = n := by
  simp [vectorResize]
  omega

theorem forall₂_le_refl (l : List (List scratch_t)) :
    List.Forall₂ (fun u v => u.length ≤ v.length) l l := by
  induction l with
  | nil => exact List.Forall₂.nil
  | cons a l ih => exact List.Forall₂.cons (Nat.le_refl _) ih

theorem forall₂_le_set (l : List (List scratch_t)) (i : Nat) (v w : List scratch_t)
    (hv : l[i]? = some v) (hw : v.length ≤ w.length) :
    List.Forall₂ (fun u v => u.length ≤ v.length) l (l.set i w) := by
  induction l generalizing i with
  | nil => simp at hv
  | cons a l ih =>
    cases i with
    | zero =>
      simp at hv
      subst hv
      exact List.Forall₂.cons hw (forall₂_le_refl l)
    | succ i =>
      simp at hv
      exact List.Forall₂.cons (Nat.le_refl _) (ih i hv)

/-! ## Scratch pad: growth, high-water mark and independence of the buffers -/

theorem capacityLE_refl (s : DEMSolverStateData) : capacityLE s s :=
  ⟨Nat.le_refl _, forall₂_le_refl _⟩

theorem allocateScratchSpace_eq (s : DEMSolverStateData) (n : Nat) :
    s.allocateScratchSpace n =
      if s.cubScratchSpace.length < n then
        .returned (vectorResize s.cubScratchSpace n 0)
          { s with cubScratchSpace := vectorResize s.cubScratchSpace n 0 }
      else .returned s.cubScratchSpace s := by
  unfold DEMSolverStateData.allocateScratchSpace
  split <;> rfl

theorem allocateTempVector_eq (s : DEMSolverStateData) (i n : Nat) (v : List scratch_t)
    (hv : s.threadTempVectors[i]? = some v) :
    s.allocateTempVector i n =
      if v.length < n then
        .returned (vectorResize v n 0)
          { s with threadTempVectors := s.threadTempVectors.set i (vectorResize v n 0) }
      else .returned v s := by
  unfold DEMSolverStateData.allocateTempVector
  have hi : i < s.threadTempVectors.length := by
    rcases Nat.lt_or_ge i s.threadTempVectors.length with h | h
    · exact h
    · rw [List.getElem?_eq_none h] at hv
      cases hv
  simp only [hv]
  by_cases h : v.length < n
  · simp only [if_pos h, List.getElem?_set_self hi]
  · simp only [if_neg h, hv]

theorem allocateTempVector_invalid (s : DEMSolverStateData) (i n : Nat)
    (hv : s.threadTempVectors[i]? = none) :
    s.allocateTempVector i n = .threw .out_of_range s := by
  unfold DEMSolverStateData.allocateTempVector
  simp only [hv]

theorem scratchCall_capacityLE (c : ScratchCall) (s : DEMSolverStateData) :
    capacityLE s (c.run s).state := by
  cases c with
  | allocateScratchSpace n =>
    simp only [ScratchCall.run, allocateScratchSpace_eq]
    split
    · refine ⟨?_, forall₂_le_refl _⟩
      simp only [Outcome.state, length_vectorResize]
      omega
    · exact capacityLE_refl s
  | allocateTempVector i n =>
    simp only [ScratchCall.run]
    cases hv : s.threadTempVectors[i]? with
    | none =>
      rw [allocateTempVector_invalid s i n hv]
      exact capacityLE_refl s
    | some v =>
      rw [allocateTempVector_eq s i n v hv]
      split
      · refine ⟨Nat.le_refl _, ?_⟩
        simp only [Outcome.state]
        apply forall₂_le_set _ _ v _ hv
        rw [length_vectorResize]
        omega
      · exact capacityLE_refl s

theorem allocateScratchSpaceAll_length (s : DEMSolverStateData) (requests : List Nat) :
    (allocateScratchSpaceAll s requests).cubScratchSpace.length
      = requests.foldl max s.cubScratchSpace.length := by
  induction requests generalizing s with
  | nil => rfl
  | cons n ns ih =>
    have step : allocateScratchSpaceAll s (n :: ns)
        = allocateScratchSpaceAll (s.allocateScratchSpace n).state ns := rfl
    rw [step, ih, List.foldl_cons]
    congr 1
    rw [allocateScratchSpace_eq]
    split
    · simp only [Outcome.state, length_vectorResize]
      omega
    · simp only [Outcome.state]
      omega

/-- C1. Monotonic scratch growth: along any finite sequence of
`allocateScratchSpace` and `allocateTempVector` calls made on any scratch pad,
from each pad to the one after the next call the CUB scratch space does not get
shorter, the number of temp vectors stays the same and no temp vector gets
shorter. -/
theorem scratch_capacity_never_decreases (s : DEMSolverStateData) (calls : List ScratchCall) :
    List.Chain' capacityLE (s :: scratchTrace s calls) := by
  induction calls generalizing s with
  | nil => simp [scratchTrace]
  | cons c cs ih =>
    simp only [scratchTrace, List.chain'_cons]
    exact ⟨scratchCall_capacityLE c s, ih _⟩

/-- C2. `allocateScratchSpace(sizeNeeded)` returns the CUB scratch space, whose
length is then `max (old length) sizeNeeded`: at least `sizeNeeded`, exactly
`sizeNeeded` if that exceeds the old length, and the pad is left as it was
otherwise. The same holds of `allocateTempVector(i, sizeNeeded)` and temp
vector `i` whenever `i` is a valid index. -/
theorem allocate_size_is_max (s : DEMSolverStateData) (sizeNeeded : Nat) :
    (∃ buf s1, s.allocateScratchSpace sizeNeeded = .returned buf s1 ∧
        buf = s1.cubScratchSpace ∧
        buf.length = max s.cubScratchSpace.length sizeNeeded ∧
        sizeNeeded ≤ buf.length ∧
        (s.cubScratchSpace.length < sizeNeeded → buf.length = sizeNeeded) ∧
        (sizeNeeded ≤ s.cubScratchSpace.length → s1 = s)) ∧
    (∀ i v, s.threadTempVectors[i]? = some v →
      ∃ buf s1, s.allocateTempVector i sizeNeeded = .returned buf s1 ∧
        s1.threadTempVectors[i]? = some buf ∧
        buf.length = max v.length sizeNeeded ∧
        sizeNeeded ≤ buf.length ∧
        (v.length < sizeNeeded → buf.length = sizeNeeded) ∧
        (sizeNeeded ≤ v.length → s1 = s)) := by
  constructor
  · rw [allocateScratchSpace_eq]
    by_cases h : s.cubScratchSpace.length < sizeNeeded
    · rw [if_pos h]
      refine ⟨_, _, rfl, rfl, ?_, ?_, ?_, ?_⟩
      · rw [length_vectorResize]; omega
      · rw [length_vectorResize]
      · intro _; rw [length_vectorResize]
      · intro h2; omega
    · rw [if_neg h]
      refine ⟨_, _, rfl, rfl, ?_, ?_, ?_, ?_⟩
      · omega
      · omega
      · intro h2; omega
      · intro _; rfl
  · intro i v hv
    have hi : i < s.threadTempVectors.length := by
      rcases Nat.lt_or_ge i s.threadTempVectors.length with h | h
      · exact h
      · rw [List.getElem?_eq_none h] at hv
        cases hv
    rw [allocateTempVector_eq s i sizeNeeded v hv]
    by_cases h : v.length < sizeNeeded
    · rw [if_pos h]
      refine ⟨_, _, rfl, ?_, ?_, ?_, ?_, ?_⟩
      · simp [List.getElem?_set, hi]
      · rw [length_vectorResize]; omega
      · rw [length_vectorResize]
      · intro _; rw [length_vectorResize]
      · intro h2; omega
    · rw [if_neg h]
      refine ⟨_, _, rfl, hv, ?_, ?_, ?_, ?_⟩
      · omega
      · omega
      · intro h2; omega
      · intro _; rfl

/-- C3. High-water mark: on a freshly constructed scratch pad, after the
requests `allocateScratchSpace(n_1)`, ..., `allocateScratchSpace(n_k)` the
length of the CUB scratch space is the maximum of `n_1, ..., n_k`, and 0 when
there was no request. -/
theorem scratch_size_is_high_water_mark (nArrays t1 t2 t3 : Nat) (requests : List Nat) :
    (allocateScratchSpaceAll (DEMSolverStateData.construct nArrays t1 t2 t3)
        requests).cubScratchSpace.length = requests.foldl max 0 := by
  rw [allocateScratchSpaceAll_length]
  rfl

/-- C4. Independence of the named buffers: `allocateTempVector(i, n)` changes
neither a temp vector `j` other than `i`, nor the CUB scratch space, nor the
number of temp vectors, nor a scalar slot; `allocateScratchSpace(n)` changes
neither a temp vector nor a scalar slot. -/
theorem scratch_buffers_independent (s : DEMSolverStateData) (i n : Nat) :
    ((∀ j, j ≠ i →
        (s.allocateTempVector i n).state.threadTempVectors[j]? = s.threadTempVectors[j]?) ∧
      (s.allocateTempVector i n).state.threadTempVectors.length = s.threadTempVectors.length ∧
      (s.allocateTempVector i n).state.cubScratchSpace = s.cubScratchSpace ∧
      (s.allocateTempVector i n).state.numTempArrays = s.numTempArrays ∧
      (s.allocateTempVector i n).state.pTempSizeVar1 = s.pTempSizeVar1 ∧
      (s.allocateTempVector i n).state.pTempSizeVar2 = s.pTempSizeVar2 ∧
      (s.allocateTempVector i n).state.pTempSizeVar3 = s.pTempSizeVar3 ∧
      (s.allocateTempVector i n).state.pNumContacts = s.pNumContacts ∧
      (s.allocateTempVector i n).state.pNumPrevContacts = s.pNumPrevContacts ∧
      (s.allocateTempVector i n).state.pNumPrevSpheres = s.pNumPrevSpheres) ∧
    ((s.allocateScratchSpace n).state.threadTempVectors = s.threadTempVectors ∧
      (s.allocateScratchSpace n).state.numTempArrays = s.numTempArrays ∧
      (s.allocateScratchSpace n).state.pTempSizeVar1 = s.pTempSizeVar1 ∧
      (s.allocateScratchSpace n).state.pTempSizeVar2 = s.pTempSizeVar2 ∧
      (s.allocateScratchSpace n).state.pTempSizeVar3 = s.pTempSizeVar3 ∧
      (s.allocateScratchSpace n).state.pNumContacts = s.pNumContacts ∧
      (s.allocateScratchSpace n).state.pNumPrevContacts = s.pNumPrevContacts ∧
      (s.allocateScratchSpace n).state.pNumPrevSpheres = s.pNumPrevSpheres) := by
  constructor
  · cases hv : s.threadTempVectors[i]? with
    | none =>
      rw [allocateTempVector_invalid s i n hv]
      simp [Outcome.state]
    | some v =>
      rw [allocateTempVector_eq s i n v hv]
      split
      · refine ⟨?_, ?_, rfl, rfl, rfl, rfl, rfl, rfl, rfl, rfl⟩
        · intro j hj
          simp only [Outcome.state]
          rw [List.getElem?_set_ne (Ne.symm hj)]
        · simp [Outcome.state]
      · simp [Outcome.state]
  · rw [allocateScratchSpace_eq]
    split <;> simp [Outcome.state]

/-! ## Clump batch: what the setters reject, and what a rejected call leaves -/

section ClumpBatch

variable {F : Type}

theorem assertLength_eq_threw (b b1 : DEMClumpBatch F) (len : Nat) (name : String) (e : Exn)
    (g : DEMClumpBatch F → DEMClumpBatch F)
    (hthrow : ((b.assertLength len name).andThen fun _ b2 => .returned () (g b2)) = .threw e b1) :
    b1 = b := by
  unfold DEMClumpBatch.assertLength at hthrow
  split at hthrow
  · simp only [Outcome.andThen, Outcome.threw.injEq] at hthrow
    exact hthrow.2.symm
  · simp [Outcome.andThen] at hthrow

theorem SetFamilies_eq (b : DEMClumpBatch F) (input : List Nat) :
    b.SetFamilies input =
      if input.length ≠ b.nClumps ∨ ∃ x ∈ input, 255 < x then
        .threw (.runtime_error "SetFamilies") b
      else .returned () { b with families := input, family_isSpecified := true } := by
  unfold DEMClumpBatch.SetFamilies DEMClumpBatch.assertLength
  by_cases hlen : input.length ≠ b.nClumps
  · simp [hlen, Outcome.andThen]
  · by_cases hbig : ∃ x ∈ input, 255 < x
    · have hany : (input.any fun i => decide (i > family_t_max)) = true := by
        simpa [family_t_max] using hbig
      simp only [hlen, if_false, Outcome.andThen, hany, if_true, hbig, or_true]
    · have hany : ¬ (input.any fun i => decide (i > family_t_max)) = true := by
        simpa [family_t_max] using hbig
      simp [hlen, Outcome.andThen, hany, hbig]

theorem outcome_threw_state (o : Outcome Unit (DEMClumpBatch F)) (b : DEMClumpBatch F)
    (hatomic : ∀ e b1, o = .threw e b1 → b1 = b) (hthrown : o.hasThrown = true) :
    o.state = b := by
  cases o with
  | returned v s => simp [Outcome.hasThrown] at hthrown
  | threw e s => exact hatomic e s rfl

theorem SetFamilies_threw (b b1 : DEMClumpBatch F) (input : List Nat) (e : Exn)
    (hthrow : b.SetFamilies input = .threw e b1) : b1 = b := by
  rw [SetFamilies_eq] at hthrow
  split at hthrow
  · simp only [Outcome.threw.injEq] at hthrow
    exact hthrow.2.symm
  · simp at hthrow

theorem guarded_assign_threw (b b1 b2 : DEMClumpBatch F) (c : Prop) [Decidable c] (e0 e : Exn)
    (hthrow : (if c then Outcome.threw e0 b else Outcome.returned () b2) = .threw e b1) :
    b1 = b := by
  split at hthrow
  · simp only [Outcome.threw.injEq] at hthrow
    exact hthrow.2.symm
  · simp at hthrow

theorem checked_then_threw {α : Type} (b b1 : DEMClumpBatch F) (check : Option Exn)
    (arg : Option α) (k : α → Outcome Unit (DEMClumpBatch F)) (e : Exn)
    (hk : ∀ a e1 b2, k a = .threw e1 b2 → b2 = b)
    (hthrow : (match check with
        | some e0 => some (Outcome.threw e0 b)
        | none => arg.map k) = some (.threw e b1)) :
    b1 = b := by
  cases check with
  | some e0 =>
    simp only [Option.some.injEq, Outcome.threw.injEq] at hthrow
    exact hthrow.2.symm
  | none =>
    cases arg with
    | none => simp at hthrow
    | some a =>
      simp only [Option.map_some', Option.some.injEq] at hthrow
      exact hk a e b1 hthrow

theorem wildcards_set_threw (b b1 b2 : DEMClumpBatch F) (wildcards : WildcardMap F) (n : Nat)
    (e0 e : Exn)
    (hthrow : (match wildcards with
        | [] => none
        | first :: _ =>
          if first.2.length ≠ n then some (Outcome.threw e0 b)
          else some (Outcome.returned () b2)) = some (.threw e b1)) :
    b1 = b := by
  cases wildcards with
  | nil => simp at hthrow
  | cons first rest =>
    simp only at hthrow
    split at hthrow
    · simp only [Option.some.injEq, Outcome.threw.injEq] at hthrow
      exact hthrow.2.symm
    · simp at hthrow

theorem run_threw (h : HostSideHelpers F) (c : ClumpBatchCall F) (b b1 : DEMClumpBatch F)
    (e : Exn) (hthrow : c.run h b = some (.threw e b1)) : b1 = b := by
  cases c with
  | SetTypes input =>
    simp only [ClumpBatchCall.run, Option.some.injEq] at hthrow
    exact assertLength_eq_threw b b1 _ _ e _ hthrow
  | SetTypes_one input =>
    simp only [ClumpBatchCall.run, Option.some.injEq] at hthrow
    exact assertLength_eq_threw b b1 _ _ e _ hthrow
  | SetType input =>
    simp only [ClumpBatchCall.run, Option.some.injEq] at hthrow
    exact assertLength_eq_threw b b1 _ _ e _ hthrow
  | SetPos input =>
    simp only [ClumpBatchCall.run, Option.some.injEq] at hthrow
    exact assertLength_eq_threw b b1 _ _ e _ hthrow
  | SetPos_float3 input =>
    simp only [ClumpBatchCall.run, Option.some.injEq] at hthrow
    exact assertLength_eq_threw b b1 _ _ e _ hthrow
  | SetPos_floats input =>
    exact checked_then_threw b b1 _ _ _ e
      (fun a e1 b2 hk => assertLength_eq_threw b b2 _ _ e1 _ hk) hthrow
  | SetPos_rows input =>
    exact checked_then_threw b b1 _ _ _ e
      (fun a e1 b2 hk => assertLength_eq_threw b b2 _ _ e1 _ hk) hthrow
  | SetVel input =>
    simp only [ClumpBatchCall.run, Option.some.injEq] at hthrow
    exact assertLength_eq_threw b b1 _ _ e _ hthrow
  | SetVel_float3 input =>
    simp only [ClumpBatchCall.run, Option.some.injEq] at hthrow
    exact assertLength_eq_threw b b1 _ _ e _ hthrow
  | SetVel_floats input =>
    exact checked_then_threw b b1 _ _ _ e
      (fun a e1 b2 hk => assertLength_eq_threw b b2 _ _ e1 _ hk) hthrow
  | SetVel_rows input =>
    exact checked_then_threw b b1 _ _ _ e
      (fun a e1 b2 hk => assertLength_eq_threw b b2 _ _ e1 _ hk) hthrow
  | SetAngVel input =>
    simp only [ClumpBatchCall.run, Option.some.injEq] at hthrow
    exact assertLength_eq_threw b b1 _ _ e _ hthrow
  | SetAngVel_float3 input =>
    simp only [ClumpBatchCall.run, Option.some.injEq] at hthrow
    exact assertLength_eq_threw b b1 _ _ e _ hthrow
  | SetAngVel_floats input =>
    exact checked_then_threw b b1 _ _ _ e
      (fun a e1 b2 hk => assertLength_eq_threw b b2 _ _ e1 _ hk) hthrow
  | SetAngVel_rows input =>
    exact checked_then_threw b b1 _ _ _ e
      (fun a e1 b2 hk => assertLength_eq_threw b b2 _ _ e1 _ hk) hthrow
  | SetOriQ input =>
    simp only [ClumpBatchCall.run, Option.some.injEq] at hthrow
    exact assertLength_eq_threw b b1 _ _ e _ hthrow
  | SetOriQ_float4 input =>
    simp only [ClumpBatchCall.run, Option.some.injEq] at hthrow
    exact assertLength_eq_threw b b1 _ _ e _ hthrow
  | SetOriQ_floats input =>
    exact checked_then_threw b b1 _ _ _ e
      (fun a e1 b2 hk => assertLength_eq_threw b b2 _ _ e1 _ hk) hthrow
  | SetOriQ_rows input =>
    exact checked_then_threw b b1 _ _ _ e
      (fun a e1 b2 hk => assertLength_eq_threw b b2 _ _ e1 _ hk) hthrow
  | SetFamilies input =>
    simp only [ClumpBatchCall.run, Option.some.injEq] at hthrow
    exact SetFamilies_threw b b1 _ e hthrow
  | SetFamilies_one input =>
    simp only [ClumpBatchCall.run, Option.some.injEq] at hthrow
    exact SetFamilies_threw b b1 _ e hthrow
  | SetFamily input =>
    simp only [ClumpBatchCall.run, Option.some.injEq] at hthrow
    exact SetFamilies_threw b b1 _ e hthrow
  | SetExistingContacts pairs =>
    simp [ClumpBatchCall.run, DEMClumpBatch.SetExistingContacts] at hthrow
  | SetExistingContactWildcards wildcards =>
    exact wildcards_set_threw b b1 _ wildcards _ _ e hthrow
  | AddExistingContactWildcard name vals =>
    simp only [ClumpBatchCall.run, Option.some.injEq] at hthrow
    exact guarded_assign_threw b b1 _ _ _ e hthrow
  | SetOwnerWildcards wildcards =>
    exact wildcards_set_threw b b1 _ wildcards _ _ e hthrow
  | AddOwnerWildcard name vals =>
    simp only [ClumpBatchCall.run, Option.some.injEq] at hthrow
    exact guarded_assign_threw b b1 _ _ _ e hthrow
  | AddOwnerWildcard_one name val =>
    simp only [ClumpBatchCall.run, Option.some.injEq] at hthrow
    exact guarded_assign_threw b b1 _ _ _ e hthrow
  | SetGeometryWildcards wildcards =>
    exact wildcards_set_threw b b1 _ wildcards _ _ e hthrow
  | AddGeometryWildcard name vals =>
    simp only [ClumpBatchCall.run, Option.some.injEq] at hthrow
    exact guarded_assign_threw b b1 _ _ _ e hthrow
  | AddGeometryWildcard_one name val =>
    simp only [ClumpBatchCall.run, Option.some.injEq] at hthrow
    exact guarded_assign_threw b b1 _ _ _ e hthrow

end ClumpBatch

/-! ## Clump batch: the claims -/

/-- C5. `SetFamilies(input)` throws if and only if the length of `input`
differs from `nClumps` or some element of `input` exceeds 255, the maximum of
`family_t`; when it does not throw it returns with `families` equal to `input`
and `family_isSpecified` true (and nothing else changed). -/
theorem SetFamilies_throws_iff {F : Type} (b : DEMClumpBatch F) (input : List Nat) :
    family_t_max = 255 ∧
    ((b.SetFamilies input).hasThrown = true ↔
      (input.length ≠ b.nClumps ∨ ∃ x ∈ input, 255 < x)) ∧
    ((b.SetFamilies input).hasThrown = false →
      b.SetFamilies input
          = .returned () { b with families := input, family_isSpecified := true } ∧
        (b.SetFamilies input).state.families = input ∧
        (b.SetFamilies input).state.family_isSpecified = true) := by
  refine ⟨rfl, ?_, ?_⟩
  · by_cases hc : input.length ≠ b.nClumps ∨ ∃ x ∈ input, 255 < x
    · rw [SetFamilies_eq, if_pos hc]
      exact ⟨fun _ => hc, fun _ => rfl⟩
    · rw [SetFamilies_eq, if_neg hc]
      exact ⟨fun hf => absurd hf (by simp [Outcome.hasThrown]), fun hf => absurd hf hc⟩
  · by_cases hc : input.length ≠ b.nClumps ∨ ∃ x ∈ input, 255 < x
    · intro hf
      rw [SetFamilies_eq, if_pos hc] at hf
      simp [Outcome.hasThrown] at hf
    · intro _
      rw [SetFamilies_eq, if_neg hc]
      exact ⟨rfl, rfl, rfl⟩

/-- C6, counterexample. On a batch of zero clumps the scalar calls
`SetFamily(256)` and `SetFamilies(256)` do not throw although 256 exceeds the
maximum of `family_t`: they return, with `family_isSpecified` set. -/
theorem SetFamily_zero_clumps_accepts_256 :
    (freshBatch 0).nClumps = 0 ∧ family_t_max < 256 ∧
    ((freshBatch 0).SetFamily 256).hasThrown = false ∧
    ((freshBatch 0).SetFamilies_one 256).hasThrown = false ∧
    (freshBatch 0).SetFamily 256
      = .returned () { freshBatch 0 with families := [], family_isSpecified := true } := by
  decide

/-- C6, amended. On a batch of at least one clump, for every family number `f`
above 255 the scalar calls `SetFamily(f)` and `SetFamilies(f)` throw. -/
theorem SetFamily_above_max_throws {F : Type} (b : DEMClumpBatch F) (f : Nat)
    (hclumps : 0 < b.nClumps) (hf : 255 < f) :
    (b.SetFamily f).hasThrown = true ∧ (b.SetFamilies_one f).hasThrown = true := by
  have hthrow : (b.SetFamilies (List.replicate b.nClumps f)).hasThrown = true := by
    rw [SetFamilies_eq]
    have hc : (List.replicate b.nClumps f).length ≠ b.nClumps ∨
        ∃ x ∈ List.replicate b.nClumps f, 255 < x := by
      right
      refine ⟨f, ?_, hf⟩
      rw [List.mem_replicate]
      exact ⟨by omega, rfl⟩
    rw [if_pos hc]
    rfl
  exact ⟨hthrow, hthrow⟩

/-- Witness of C6, amended: a batch of one clump and the family number 256. -/
theorem SetFamily_above_max_throws_witness :
    0 < (freshBatch 1).nClumps ∧ 255 < 256 ∧
    ((freshBatch 1).SetFamily 256).hasThrown = true ∧
    ((freshBatch 1).SetFamilies_one 256).hasThrown = true :=
  ⟨by decide, by decide, SetFamily_above_max_throws (freshBatch 1) 256 (by decide) (by decide)⟩

/-- C7. Every setter of `DEMClumpBatch` is atomic on failure: whenever a call
of a setter (any overload) ends with an exception, the batch after the call is,
field for field, the batch before the call. -/
theorem setters_atomic_on_failure {F : Type} (h : HostSideHelpers F) (c : ClumpBatchCall F)
    (b : DEMClumpBatch F) (hthrow : (c.run h b).map Outcome.hasThrown = some true) :
    (c.run h b).map Outcome.state = some b := by
  cases hr : c.run h b with
  | none =>
    rw [hr] at hthrow
    simp at hthrow
  | some o =>
    rw [hr] at hthrow
    simp only [Option.map_some', Option.some.injEq] at hthrow
    simp only [Option.map_some', Option.some.injEq]
    exact outcome_threw_state o b (fun e b1 ho => run_threw h c b b1 e (by rw [hr, ho])) hthrow

/-- Witness of C7: `SetFamilies` with a family number that is too large, on a
batch that already holds a contact pair. -/
theorem setters_atomic_on_failure_witness :
    ((ClumpBatchCall.SetFamilies [7, 256]).run (HostSideHelpers.bySize Int)
        batchWithOneContact).map Outcome.hasThrown = some true ∧
    ((ClumpBatchCall.SetFamilies [7, 256]).run (HostSideHelpers.bySize Int)
        batchWithOneContact).map Outcome.state = some batchWithOneContact :=
  ⟨by decide, setters_atomic_on_failure _ _ _ (by decide)⟩

/-- C8, the code at the failing input. With one existing contact pair, a map
of two entries whose first entry (the one `begin()` points to) has length 1 and
whose other entry has length 3 is accepted and stored as it is, whichever of
the two keys comes first in the iteration order: only the first entry is
compared with the number of contact pairs. -/
theorem SetExistingContactWildcards_checks_first_entry_only :
    batchWithOneContact.GetNumContacts = 1 ∧
    batchWithOneContact.SetExistingContactWildcards [("mu", [5]), ("Cr", [1, 2, 3])]
      = some (.returned ()
          { batchWithOneContact with contact_wildcards := [("mu", [5]), ("Cr", [1, 2, 3])] }) ∧
    batchWithOneContact.SetExistingContactWildcards [("Cr", [5]), ("mu", [1, 2, 3])]
      = some (.returned ()
          { batchWithOneContact with contact_wildcards := [("Cr", [5]), ("mu", [1, 2, 3])] }) := by
  decide

/-- C9, the code at the failing input. On a batch of two clumps with one
existing contact pair, `AddExistingContactWildcard` rejects an array of length
1, the number of contact pairs, and accepts an array of length 2, the number of
clumps: the length is compared with `nClumps`. -/
theorem AddExistingContactWildcard_compares_with_nClumps :
    batchWithOneContact.GetNumContacts = 1 ∧ batchWithOneContact.GetNumClumps = 2 ∧
    (batchWithOneContact.AddExistingContactWildcard "w" [5]).hasThrown = true ∧
    batchWithOneContact.AddExistingContactWildcard "w" [5, 6]
      = .returned () { batchWithOneContact with contact_wildcards := [("w", [5, 6])] } := by
  decide

/-- C10, the code at the failing input. On a batch of two clumps and six
spheres a map of owner wildcards whose first entry has length 2 and whose
other entry has length 3 is accepted, and so is a map of geometry wildcards
whose first entry has length 6 and whose other entry has length 1, whichever
of the two keys comes first in the iteration order: only the first entry is
compared. -/
theorem SetOwnerWildcards_checks_first_entry_only :
    batchWithSixSpheres.GetNumClumps = 2 ∧ batchWithSixSpheres.GetNumSpheres = 6 ∧
    batchWithSixSpheres.SetOwnerWildcards [("mu", [5, 6]), ("Cr", [1, 2, 3])]
      = some (.returned ()
          { batchWithSixSpheres with owner_wildcards := [("mu", [5, 6]), ("Cr", [1, 2, 3])] }) ∧
    batchWithSixSpheres.SetOwnerWildcards [("Cr", [5, 6]), ("mu", [1, 2, 3])]
      = some (.returned ()
          { batchWithSixSpheres with owner_wildcards := [("Cr", [5, 6]), ("mu", [1, 2, 3])] }) ∧
    batchWithSixSpheres.SetGeometryWildcards [("mu", [1, 2, 3, 4, 5, 6]), ("Cr", [1])]
      = some (.returned ()
          { batchWithSixSpheres with
            geo_wildcards := [("mu", [1, 2, 3, 4, 5, 6]), ("Cr", [1])] }) ∧
    batchWithSixSpheres.SetGeometryWildcards [("Cr", [1, 2, 3, 4, 5, 6]), ("mu", [1])]
      = some (.returned ()
          { batchWithSixSpheres with
            geo_wildcards := [("Cr", [1, 2, 3, 4, 5, 6]), ("mu", [1])] }) := by
  decide

/-! ## Wildcard maps -/

theorem lookup_assign_self {F : Type} (m : WildcardMap F) (name : String) (vals : List F) :
    (m.assign name vals).lookup name = some vals := by
  induction m with
  | nil => simp [WildcardMap.assign, WildcardMap.lookup]
  | cons entry rest ih =>
    obtain ⟨k, v⟩ := entry
    by_cases hk : k = name
    · simp [WildcardMap.assign, WildcardMap.lookup, hk]
    · simp only [WildcardMap.assign, if_neg hk, WildcardMap.lookup]
      exact ih

theorem lookup_assign_other {F : Type} (m : WildcardMap F) (name key : String) (vals : List F)
    (hkey : key ≠ name) : (m.assign name vals).lookup key = m.lookup key := by
  induction m with
  | nil =>
    simp only [WildcardMap.assign, WildcardMap.lookup]
    rw [if_neg (Ne.symm hkey)]
  | cons entry rest ih =>
    obtain ⟨k, v⟩ := entry
    by_cases hk : k = name
    · have hkk : ¬ k = key := fun h => hkey (h.symm.trans hk)
      simp only [WildcardMap.assign, if_pos hk, WildcardMap.lookup, if_neg hkk]
    · simp only [WildcardMap.assign, if_neg hk, WildcardMap.lookup]
      rw [ih]

/-- C11. `AddOwnerWildcard(name, vals)` throws if and only if the length of
`vals` differs from `nClumps`; a call that throws leaves the batch as it was,
and a call that does not throw returns with `owner_wildcards` mapping `name` to
`vals`, every other key keeping its previous array (or absence) and every
other member of the batch its value. -/
theorem AddOwnerWildcard_throws_iff {F : Type} (b : DEMClumpBatch F) (name : String)
    (vals : List F) :
    ((b.AddOwnerWildcard name vals).hasThrown = true ↔ vals.length ≠ b.nClumps) ∧
    (vals.length ≠ b.nClumps →
      b.AddOwnerWildcard name vals = .threw (.runtime_error "AddOwnerWildcard") b) ∧
    (vals.length = b.nClumps →
      b.AddOwnerWildcard name vals
          = .returned () { b with owner_wildcards := b.owner_wildcards.assign name vals } ∧
        (b.AddOwnerWildcard name vals).state.owner_wildcards.lookup name = some vals ∧
        ∀ key, key ≠ name →
          (b.AddOwnerWildcard name vals).state.owner_wildcards.lookup key
            = b.owner_wildcards.lookup key) := by
  by_cases hlen : vals.length ≠ b.nClumps
  · have hcall : b.AddOwnerWildcard name vals
        = .threw (.runtime_error "AddOwnerWildcard") b := by
      unfold DEMClumpBatch.AddOwnerWildcard
      rw [if_pos hlen]
    refine ⟨?_, fun _ => hcall, fun heq => absurd heq hlen⟩
    rw [hcall]
    exact ⟨fun _ => hlen, fun _ => rfl⟩
  · have hcall : b.AddOwnerWildcard name vals
        = .returned () { b with owner_wildcards := b.owner_wildcards.assign name vals } := by
      unfold DEMClumpBatch.AddOwnerWildcard
      rw [if_neg hlen]
    refine ⟨?_, fun hne => absurd hne hlen, fun _ => ⟨hcall, ?_, ?_⟩⟩
    · rw [hcall]
      exact ⟨fun hf => absurd hf (by simp [Outcome.hasThrown]), fun hne => absurd hne hlen⟩
    · rw [hcall]
      exact lookup_assign_self _ _ _
    · intro key hkey
      rw [hcall]
      exact lookup_assign_other _ _ _ _ hkey

/-- C12. `AddGeometryWildcard(name, vals)` throws if and only if the length of
`vals` differs from `nSpheres`, the value of `GetNumSpheres()`; a call that
throws leaves the batch as it was, and a call that does not throw returns with
`geo_wildcards` mapping `name` to `vals`, every other key keeping its previous
array (or absence) and every other member of the batch its value. -/
theorem AddGeometryWildcard_throws_iff {F : Type} (b : DEMClumpBatch F) (name : String)
    (vals : List F) :
    b.GetNumSpheres = b.nSpheres ∧
    ((b.AddGeometryWildcard name vals).hasThrown = true ↔ vals.length ≠ b.GetNumSpheres) ∧
    (vals.length ≠ b.nSpheres →
      b.AddGeometryWildcard name vals = .threw (.runtime_error "AddGeometryWildcard") b) ∧
    (vals.length = b.nSpheres →
      b.AddGeometryWildcard name vals
          = .returned () { b with geo_wildcards := b.geo_wildcards.assign name vals } ∧
        (b.AddGeometryWildcard name vals).state.geo_wildcards.lookup name = some vals ∧
        ∀ key, key ≠ name →
          (b.AddGeometryWildcard name vals).state.geo_wildcards.lookup key
            = b.geo_wildcards.lookup key) := by
  refine ⟨rfl, ?_⟩
  simp only [DEMClumpBatch.GetNumSpheres]
  by_cases hlen : vals.length ≠ b.nSpheres
  · have hcall : b.AddGeometryWildcard name vals
        = .threw (.runtime_error "AddGeometryWildcard") b := by
      unfold DEMClumpBatch.AddGeometryWildcard
      rw [if_pos hlen]
    refine ⟨?_, fun _ => hcall, fun heq => absurd heq hlen⟩
    rw [hcall]
    exact ⟨fun _ => hlen, fun _ => rfl⟩
  · have hcall : b.AddGeometryWildcard name vals
        = .returned () { b with geo_wildcards := b.geo_wildcards.assign name vals } := by
      unfold DEMClumpBatch.AddGeometryWildcard
      rw [if_neg hlen]
    refine ⟨?_, fun hne => absurd hne hlen, fun _ => ⟨hcall, ?_, ?_⟩⟩
    · rw [hcall]
      exact ⟨fun hf => absurd hf (by simp [Outcome.hasThrown]), fun hne => absurd hne hlen⟩
    · rw [hcall]
      exact lookup_assign_self _ _ _
    · intro key hkey
      rw [hcall]
      exact lookup_assign_other _ _ _ _ hkey

/-! ## Anomaly log -/

/-- C16. The anomaly log is constructed with no anomaly recorded, and from
every state `Clear()` returns (it never throws) and leaves the log with no
anomaly recorded; clearing twice is the same as clearing once. -/
theorem WorkerAnomalies_Clear_resets (a : WorkerAnomalies) :
    WorkerAnomalies.construct.over_max_vel = false ∧
    a.Clear = .returned () WorkerAnomalies.construct ∧
    a.Clear.hasThrown = false ∧
    a.Clear.state.over_max_vel = false ∧
    a.Clear.state.Clear = a.Clear := by
  exact ⟨rfl, rfl, rfl, rfl, rfl⟩

/-! ## Clump batch: broadcast overloads and empty wildcard maps -/

theorem assertLength_pass {F : Type} (b : DEMClumpBatch F) (len : Nat) (name : String)
    (g : DEMClumpBatch F → DEMClumpBatch F) (hlen : len = b.nClumps) :
    ((b.assertLength len name).andThen fun _ b1 => .returned () (g b1)) = .returned () (g b) := by
  unfold DEMClumpBatch.assertLength
  rw [if_neg (not_not.mpr hlen)]
  rfl

/-- C18. The broadcast overloads never throw and store a constant array:
`SetPos(float3)`, `SetVel(float3)`, `SetAngVel(float3)`, `SetOriQ(float4)`,
`SetTypes(template)` and `SetType(template)` return with the field equal to
`nClumps` copies of the value and nothing else changed;
`AddOwnerWildcard(name, float)` returns with `nClumps` copies stored under
`name`, and `AddGeometryWildcard(name, float)` with `nSpheres` copies. -/
theorem broadcast_overloads_succeed {F : Type} (b : DEMClumpBatch F) (v : float3 F)
    (q : float4 F) (tmpl : ClumpTemplatePtr) (name : String) (val : F) :
    b.SetPos_float3 v = .returned () { b with xyz := List.replicate b.nClumps v } ∧
    b.SetVel_float3 v = .returned () { b with vel := List.replicate b.nClumps v } ∧
    b.SetAngVel_float3 v = .returned () { b with angVel := List.replicate b.nClumps v } ∧
    b.SetOriQ_float4 q = .returned () { b with oriQ := List.replicate b.nClumps q } ∧
    b.SetTypes_one tmpl = .returned () { b with types := List.replicate b.nClumps tmpl } ∧
    b.SetType tmpl = .returned () { b with types := List.replicate b.nClumps tmpl } ∧
    (b.AddOwnerWildcard_one name val
        = .returned ()
            { b with owner_wildcards :=
                b.owner_wildcards.assign name (List.replicate b.nClumps val) } ∧
      (b.AddOwnerWildcard_one name val).state.owner_wildcards.lookup name
        = some (List.replicate b.nClumps val)) ∧
    (b.AddGeometryWildcard_one name val
        = .returned ()
            { b with geo_wildcards :=
                b.geo_wildcards.assign name (List.replicate b.nSpheres val) } ∧
      (b.AddGeometryWildcard_one name val).state.geo_wildcards.lookup name
        = some (List.replicate b.nSpheres val)) := by
  have howner : b.AddOwnerWildcard_one name val
      = .returned ()
          { b with owner_wildcards :=
              b.owner_wildcards.assign name (List.replicate b.nClumps val) } := by
    unfold DEMClumpBatch.AddOwnerWildcard_one DEMClumpBatch.AddOwnerWildcard
    rw [if_neg (by simp)]
  have hgeo : b.AddGeometryWildcard_one name val
      = .returned ()
          { b with geo_wildcards :=
              b.geo_wildcards.assign name (List.replicate b.nSpheres val) } := by
    unfold DEMClumpBatch.AddGeometryWildcard_one DEMClumpBatch.AddGeometryWildcard
    rw [if_neg (by simp)]
  refine ⟨?_, ?_, ?_, ?_, ?_, ?_, ⟨howner, ?_⟩, ⟨hgeo, ?_⟩⟩
  · exact assertLength_pass b _ _ _ (List.length_replicate _ _)
  · exact assertLength_pass b _ _ _ (List.length_replicate _ _)
  · exact assertLength_pass b _ _ _ (List.length_replicate _ _)
  · exact assertLength_pass b _ _ _ (List.length_replicate _ _)
  · exact assertLength_pass b _ _ _ (List.length_replicate _ _)
  · exact assertLength_pass b _ _ _ (List.length_replicate _ _)
  · rw [howner]
    exact lookup_assign_self _ _ _
  · rw [hgeo]
    exact lookup_assign_self _ _ _

/-- C19, the code at the failing input. On the empty map each of
`SetExistingContactWildcards`, `SetOwnerWildcards` and `SetGeometryWildcards`
reads `wildcards.begin()->second`, the entry of the end iterator: the call has
undefined behaviour, it neither throws its length error nor stores the map. -/
theorem wildcard_setters_empty_map_undefined :
    batchWithOneContact.SetExistingContactWildcards [] = none ∧
    batchWithOneContact.SetOwnerWildcards [] = none ∧
    batchWithOneContact.SetGeometryWildcards [] = none ∧
    (freshBatch 0).SetExistingContactWildcards [] = none ∧
    (freshBatch 0).SetOwnerWildcards [] = none ∧
    (freshBatch 0).SetGeometryWildcards [] = none := by
  decide

/-! ## Scratch pad: the set of temp vectors -/

theorem scratchAfter_tempVectors_length (s : DEMSolverStateData) (calls : List ScratchCall) :
    (scratchAfter s calls).threadTempVectors.length = s.threadTempVectors.length := by
  induction calls generalizing s with
  | nil => rfl
  | cons c cs ih =>
    have step : scratchAfter s (c :: cs) = scratchAfter (c.run s).state cs := rfl
    rw [step, ih]
    exact ((scratchCall_capacityLE c s).2.length_eq).symm

theorem construct_tempVectors_length (nArrays t1 t2 t3 : Nat) :
    (DEMSolverStateData.construct nArrays t1 t2 t3).threadTempVectors.length = nArrays :=
  length_vectorResize _ _ _

/-- C20. The set of temp vectors is fixed at construction: on a scratch pad
constructed with `nArrays` temp arrays, and after any sequence of calls on it,
`allocateTempVector(i, n)` fails if and only if `i >= nArrays`, whatever `n`;
when it fails the error is `out_of_range` and the pad (every buffer and scalar
slot) is left as it was, and when `i < nArrays` it returns. -/
theorem allocateTempVector_fails_iff (nArrays t1 t2 t3 : Nat) (calls : List ScratchCall)
    (i n : Nat) :
    (((scratchAfter (DEMSolverStateData.construct nArrays t1 t2 t3) calls).allocateTempVector
        i n).hasThrown = true ↔ nArrays ≤ i) ∧
    (nArrays ≤ i →
      (scratchAfter (DEMSolverStateData.construct nArrays t1 t2 t3) calls).allocateTempVector i n
        = .threw .out_of_range
            (scratchAfter (DEMSolverStateData.construct nArrays t1 t2 t3) calls)) ∧
    (i < nArrays →
      ∃ buf s1,
        (scratchAfter (DEMSolverStateData.construct nArrays t1 t2 t3) calls).allocateTempVector
          i n = .returned buf s1) := by
  have hlen : (scratchAfter (DEMSolverStateData.construct nArrays t1 t2 t3)
      calls).threadTempVectors.length = nArrays := by
    rw [scratchAfter_tempVectors_length, construct_tempVectors_length]
  generalize scratchAfter (DEMSolverStateData.construct nArrays t1 t2 t3) calls = s at hlen
  have hfail : nArrays ≤ i → s.allocateTempVector i n = .threw .out_of_range s := by
    intro hi
    apply allocateTempVector_invalid
    apply List.getElem?_eq_none
    omega
  have hok : i < nArrays → ∃ buf s1, s.allocateTempVector i n = .returned buf s1 := by
    intro hi
    have hget : s.threadTempVectors[i]? = some (s.threadTempVectors[i]) :=
      List.getElem?_eq_getElem (by omega)
    rw [allocateTempVector_eq s i n _ hget]
    split
    · exact ⟨_, _, rfl⟩
    · exact ⟨_, _, rfl⟩
  refine ⟨⟨?_, ?_⟩, hfail, hok⟩
  · intro hthrown
    by_contra hi
    obtain ⟨buf, s1, hret⟩ := hok (by omega)
    rw [hret] at hthrown
    simp [Outcome.hasThrown] at hthrown
  · intro hi
    rw [hfail hi]
    rfl

/-! ## Clump batch: the length invariant -/

theorem assertLength_state {F : Type} (P : DEMClumpBatch F → Prop) (b : DEMClumpBatch F)
    (len : Nat) (name : String) (g : DEMClumpBatch F → DEMClumpBatch F) (hb : P b)
    (hg : len = b.nClumps → P (g b)) :
    P ((b.assertLength len name).andThen fun _ b1 => .returned () (g b1)).state := by
  unfold DEMClumpBatch.assertLength
  by_cases hlen : len ≠ b.nClumps
  · rw [if_pos hlen]
    exact hb
  · rw [if_neg hlen]
    exact hg (not_not.mp hlen)

theorem guarded_assign_state {F : Type} (P : DEMClumpBatch F → Prop) (b b2 : DEMClumpBatch F)
    (c : Prop) [Decidable c] (e0 : Exn) (hb : P b) (hb2 : P b2) :
    P (if c then Outcome.threw e0 b else Outcome.returned () b2).state := by
  split
  · exact hb
  · exact hb2

theorem checked_then_state {F α : Type} (P : DEMClumpBatch F → Prop) (b : DEMClumpBatch F)
    (check : Option Exn) (arg : Option α) (k : α → Outcome Unit (DEMClumpBatch F))
    (o : Outcome Unit (DEMClumpBatch F)) (hb : P b) (hk : ∀ a, P (k a).state)
    (hrun : (match check with
        | some e0 => some (Outcome.threw e0 b)
        | none => arg.map k) = some o) :
    P o.state := by
  cases check with
  | some e0 =>
    simp only [Option.some.injEq] at hrun
    subst hrun
    exact hb
  | none =>
    cases arg with
    | none => simp at hrun
    | some a =>
      simp only [Option.map_some', Option.some.injEq] at hrun
      subst hrun
      exact hk a

theorem wildcards_set_state {F : Type} (P : DEMClumpBatch F → Prop) (b b2 : DEMClumpBatch F)
    (wildcards : WildcardMap F) (n : Nat) (e0 : Exn) (o : Outcome Unit (DEMClumpBatch F))
    (hb : P b) (hb2 : P b2)
    (hrun : (match wildcards with
        | [] => none
        | first :: _ =>
          if first.2.length ≠ n then some (Outcome.threw e0 b)
          else some (Outcome.returned () b2)) = some o) :
    P o.state := by
  cases wildcards with
  | nil => simp at hrun
  | cons first rest =>
    simp only at hrun
    split at hrun
    · simp only [Option.some.injEq] at hrun
      subst hrun
      exact hb
    · simp only [Option.some.injEq] at hrun
      subst hrun
      exact hb2

theorem SetTypes_lengthsAgree {F : Type} (num : Nat) (b : DEMClumpBatch F) (input : List _)
    (hinv : b.lengthsAgree num) : (b.SetTypes input).state.lengthsAgree num := by
  apply assertLength_state (DEMClumpBatch.lengthsAgree num) b _ _ _ hinv
  intro hlen
  simp only [DEMClumpBatch.lengthsAgree] at hinv ⊢
  omega

theorem SetPos_lengthsAgree {F : Type} (num : Nat) (b : DEMClumpBatch F) (input : List _)
    (hinv : b.lengthsAgree num) : (b.SetPos input).state.lengthsAgree num := by
  apply assertLength_state (DEMClumpBatch.lengthsAgree num) b _ _ _ hinv
  intro hlen
  simp only [DEMClumpBatch.lengthsAgree] at hinv ⊢
  omega

theorem SetVel_lengthsAgree {F : Type} (num : Nat) (b : DEMClumpBatch F) (input : List _)
    (hinv : b.lengthsAgree num) : (b.SetVel input).state.lengthsAgree num := by
  apply assertLength_state (DEMClumpBatch.lengthsAgree num) b _ _ _ hinv
  intro hlen
  simp only [DEMClumpBatch.lengthsAgree] at hinv ⊢
  omega

theorem SetAngVel_lengthsAgree {F : Type} (num : Nat) (b : DEMClumpBatch F) (input : List _)
    (hinv : b.lengthsAgree num) : (b.SetAngVel input).state.lengthsAgree num := by
  apply assertLength_state (DEMClumpBatch.lengthsAgree num) b _ _ _ hinv
  intro hlen
  simp only [DEMClumpBatch.lengthsAgree] at hinv ⊢
  omega

theorem SetOriQ_lengthsAgree {F : Type} (num : Nat) (b : DEMClumpBatch F) (input : List _)
    (hinv : b.lengthsAgree num) : (b.SetOriQ input).state.lengthsAgree num := by
  apply assertLength_state (DEMClumpBatch.lengthsAgree num) b _ _ _ hinv
  intro hlen
  simp only [DEMClumpBatch.lengthsAgree] at hinv ⊢
  omega

theorem SetFamilies_lengthsAgree {F : Type} (num : Nat) (b : DEMClumpBatch F) (input : List Nat)
    (hinv : b.lengthsAgree num) : (b.SetFamilies input).state.lengthsAgree num := by
  rw [SetFamilies_eq]
  split
  · exact hinv
  · rename_i hc
    simp only [DEMClumpBatch.lengthsAgree, Outcome.state] at hinv ⊢
    have hlen : input.length = b.nClumps := by
      by_contra hne
      exact hc (Or.inl hne)
    omega

theorem run_lengthsAgree {F : Type} (h : HostSideHelpers F) (num : Nat) (c : ClumpBatchCall F)
    (b : DEMClumpBatch F) (o : Outcome Unit (DEMClumpBatch F)) (hrun : c.run h b = some o)
    (hinv : b.lengthsAgree num) : o.state.lengthsAgree num := by
  cases c with
  | SetTypes input =>
    simp only [ClumpBatchCall.run, Option.some.injEq] at hrun
    subst hrun
    exact SetTypes_lengthsAgree num b _ hinv
  | SetTypes_one input =>
    simp only [ClumpBatchCall.run, Option.some.injEq] at hrun
    subst hrun
    exact SetTypes_lengthsAgree num b _ hinv
  | SetType input =>
    simp only [ClumpBatchCall.run, Option.some.injEq] at hrun
    subst hrun
    exact SetTypes_lengthsAgree num b _ hinv
  | SetPos input =>
    simp only [ClumpBatchCall.run, Option.some.injEq] at hrun
    subst hrun
    exact SetPos_lengthsAgree num b _ hinv
  | SetPos_float3 input =>
    simp only [ClumpBatchCall.run, Option.some.injEq] at hrun
    subst hrun
    exact SetPos_lengthsAgree num b _ hinv
  | SetPos_floats input =>
    exact checked_then_state (DEMClumpBatch.lengthsAgree num) b _ _ _ o hinv
      (fun a => SetPos_lengthsAgree num b _ hinv) hrun
  | SetPos_rows input =>
    exact checked_then_state (DEMClumpBatch.lengthsAgree num) b _ _ _ o hinv
      (fun a => SetPos_lengthsAgree num b _ hinv) hrun
  | SetVel input =>
    simp only [ClumpBatchCall.run, Option.some.injEq] at hrun
    subst hrun
    exact SetVel_lengthsAgree num b _ hinv
  | SetVel_float3 input =>
    simp only [ClumpBatchCall.run, Option.some.injEq] at hrun
    subst hrun
    exact SetVel_lengthsAgree num b _ hinv
  | SetVel_floats input =>
    exact checked_then_state (DEMClumpBatch.lengthsAgree num) b _ _ _ o hinv
      (fun a => SetVel_lengthsAgree num b _ hinv) hrun
  | SetVel_rows input =>
    exact checked_then_state (DEMClumpBatch.lengthsAgree num) b _ _ _ o hinv
      (fun a => SetVel_lengthsAgree num b _ hinv) hrun
  | SetAngVel input =>
    simp only [ClumpBatchCall.run, Option.some.injEq] at hrun
    subst hrun
    exact SetAngVel_lengthsAgree num b _ hinv
  | SetAngVel_float3 input =>
    simp only [ClumpBatchCall.run, Option.some.injEq] at hrun
    subst hrun
    exact SetAngVel_lengthsAgree num b _ hinv
  | SetAngVel_floats input =>
    exact checked_then_state (DEMClumpBatch.lengthsAgree num) b _ _ _ o hinv
      (fun a => SetAngVel_lengthsAgree num b _ hinv) hrun
  | SetAngVel_rows input =>
    exact checked_then_state (DEMClumpBatch.lengthsAgree num) b _ _ _ o hinv
      (fun a => SetAngVel_lengthsAgree num b _ hinv) hrun
  | SetOriQ input =>
    simp only [ClumpBatchCall.run, Option.some.injEq] at hrun
    subst hrun
    exact SetOriQ_lengthsAgree num b _ hinv
  | SetOriQ_float4 input =>
    simp only [ClumpBatchCall.run, Option.some.injEq] at hrun
    subst hrun
    exact SetOriQ_lengthsAgree num b _ hinv
  | SetOriQ_floats input =>
    exact checked_then_state (DEMClumpBatch.lengthsAgree num) b _ _ _ o hinv
      (fun a => SetOriQ_lengthsAgree num b _ hinv) hrun
  | SetOriQ_rows input =>
    exact checked_then_state (DEMClumpBatch.lengthsAgree num) b _ _ _ o hinv
      (fun a => SetOriQ_lengthsAgree num b _ hinv) hrun
  | SetFamilies input =>
    simp only [ClumpBatchCall.run, Option.some.injEq] at hrun
    subst hrun
    exact SetFamilies_lengthsAgree num b _ hinv
  | SetFamilies_one input =>
    simp only [ClumpBatchCall.run, Option.some.injEq] at hrun
    subst hrun
    exact SetFamilies_lengthsAgree num b _ hinv
  | SetFamily input =>
    simp only [ClumpBatchCall.run, Option.some.injEq] at hrun
    subst hrun
    exact SetFamilies_lengthsAgree num b _ hinv
  | SetExistingContacts pairs =>
    simp only [ClumpBatchCall.run, Option.some.injEq] at hrun
    subst hrun
    exact hinv
  | SetExistingContactWildcards wildcards =>
    refine wildcards_set_state (DEMClumpBatch.lengthsAgree num) b _ wildcards _ _ o hinv ?_ hrun
    exact hinv
  | SetOwnerWildcards wildcards =>
    refine wildcards_set_state (DEMClumpBatch.lengthsAgree num) b _ wildcards _ _ o hinv ?_ hrun
    exact hinv
  | SetGeometryWildcards wildcards =>
    refine wildcards_set_state (DEMClumpBatch.lengthsAgree num) b _ wildcards _ _ o hinv ?_ hrun
    exact hinv
  | AddExistingContactWildcard name vals =>
    simp only [ClumpBatchCall.run, Option.some.injEq] at hrun
    subst hrun
    exact guarded_assign_state (DEMClumpBatch.lengthsAgree num) b _ _ _ hinv hinv
  | AddOwnerWildcard name vals =>
    simp only [ClumpBatchCall.run, Option.some.injEq] at hrun
    subst hrun
    exact guarded_assign_state (DEMClumpBatch.lengthsAgree num) b _ _ _ hinv hinv
  | AddOwnerWildcard_one name val =>
    simp only [ClumpBatchCall.run, Option.some.injEq] at hrun
    subst hrun
    exact guarded_assign_state (DEMClumpBatch.lengthsAgree num) b _ _ _ hinv hinv
  | AddGeometryWildcard name vals =>
    simp only [ClumpBatchCall.run, Option.some.injEq] at hrun
    subst hrun
    exact guarded_assign_state (DEMClumpBatch.lengthsAgree num) b _ _ _ hinv hinv
  | AddGeometryWildcard_one name val =>
    simp only [ClumpBatchCall.run, Option.some.injEq] at hrun
    subst hrun
    exact guarded_assign_state (DEMClumpBatch.lengthsAgree num) b _ _ _ hinv hinv

theorem runAll_lengthsAgree {F : Type} (h : HostSideHelpers F) (num : Nat)
    (calls : List (ClumpBatchCall F)) (b b1 : DEMClumpBatch F)
    (hrun : ClumpBatchCall.runAll h calls b = some b1) (hinv : b.lengthsAgree num) :
    b1.lengthsAgree num := by
  induction calls generalizing b with
  | nil =>
    simp only [ClumpBatchCall.runAll, Option.some.injEq] at hrun
    subst hrun
    exact hinv
  | cons c cs ih =>
    cases hc : c.run h b with
    | none => simp [ClumpBatchCall.runAll, hc] at hrun
    | some o =>
      simp only [ClumpBatchCall.runAll, hc] at hrun
      exact ih o.state hrun (run_lengthsAgree h num c b o hc hinv)

theorem construct_lengthsAgree {F : Type} [Zero F] [One F] (num d c l : Nat) :
    (DEMClumpBatch.construct num d c l : DEMClumpBatch F).lengthsAgree num := by
  simp [DEMClumpBatch.lengthsAgree, DEMClumpBatch.construct, length_vectorResize]

/-- C17. Length invariant of `DEMClumpBatch`: on a batch constructed for `num`
clumps, after any sequence of setter calls (each returning or throwing),
`nClumps` is still `num` and each of `types`, `families`, `vel`, `angVel`,
`xyz` and `oriQ` has exactly `num` elements. -/
theorem batch_lengths_invariant {F : Type} [Zero F] [One F] (h : HostSideHelpers F)
    (num defaultFamily clump loadOrder : Nat) (calls : List (ClumpBatchCall F))
    (b : DEMClumpBatch F)
    (hrun : ClumpBatchCall.runAll h calls
      (DEMClumpBatch.construct num defaultFamily clump loadOrder) = some b) :
    b.nClumps = num ∧ b.types.length = b.nClumps ∧ b.families.length = b.nClumps ∧
      b.vel.length = b.nClumps ∧ b.angVel.length = b.nClumps ∧ b.xyz.length = b.nClumps ∧
      b.oriQ.length = b.nClumps := by
  have hinv := runAll_lengthsAgree h num calls _ b hrun
    (construct_lengthsAgree num defaultFamily clump loadOrder)
  simp only [DEMClumpBatch.lengthsAgree] at hinv
  omega

/-- Witness of C17: a rejected `SetFamilies`, then an accepted `SetPos` and an
accepted `SetOwnerWildcards`, on a fresh batch of two clumps. -/
theorem batch_lengths_invariant_witness :
    ClumpBatchCall.runAll (HostSideHelpers.bySize Int)
        [.SetFamilies [256, 1], .SetPos_floats [1, 2, 3], .SetOwnerWildcards [("mu", [5, 6])]]
        (DEMClumpBatch.construct 2 0 0 0) = some batchAfterThreeCalls ∧
    (batchAfterThreeCalls.nClumps = 2 ∧
      batchAfterThreeCalls.types.length = batchAfterThreeCalls.nClumps ∧
      batchAfterThreeCalls.families.length = batchAfterThreeCalls.nClumps ∧
      batchAfterThreeCalls.vel.length = batchAfterThreeCalls.nClumps ∧
      batchAfterThreeCalls.angVel.length = batchAfterThreeCalls.nClumps ∧
      batchAfterThreeCalls.xyz.length = batchAfterThreeCalls.nClumps ∧
      batchAfterThreeCalls.oriQ.length = batchAfterThreeCalls.nClumps) :=
  ⟨by decide,
    batch_lengths_invariant (HostSideHelpers.bySize Int) 2 0 0 0
      [.SetFamilies [256, 1], .SetPos_floats [1, 2, 3], .SetOwnerWildcards [("mu", [5, 6])]]
      batchAfterThreeCalls (by decide)⟩

/-! ## Clump template: materials and scaling -/

theorem template_assertLength_eq {F : Type} (t : DEMClumpTemplate F) (cerr : List String)
    (len : Nat) (name : String) :
    t.assertLength cerr len name =
      if len ≠ t.nComp then
        .threw (.runtime_error name) (t, if t.nComp = 0 then cerr ++ [name] else cerr)
      else .returned () (t, if t.nComp = 0 then cerr ++ [name] else cerr) := rfl

theorem SetMaterial_eq {F : Type} (t : DEMClumpTemplate F) (cerr : List String)
    (input : List MaterialPtr) :
    t.SetMaterial cerr input =
      if input.length ≠ t.nComp then
        .threw (.runtime_error "SetMaterial")
          (t, if t.nComp = 0 then cerr ++ ["SetMaterial"] else cerr)
      else
        .returned ()
          ({ t with materials := input }, if t.nComp = 0 then cerr ++ ["SetMaterial"] else cerr) := by
  unfold DEMClumpTemplate.SetMaterial
  rw [template_assertLength_eq]
  split <;> rfl

/-- C13. `SetMaterial(input)` throws if and only if the length of `input`
differs from `nComp`, and then the template is left as it was; otherwise it
returns with `materials` equal to `input` and nothing else changed. On a
template with `nComp == 0` the empty `input` is accepted, with one warning
written to `std::cerr`. The overload `SetMaterial(m)` never throws: it returns
with `materials` equal to `nComp` copies of `m`. -/
theorem SetMaterial_throws_iff {F : Type} (t : DEMClumpTemplate F) (cerr : List String)
    (input : List MaterialPtr) (m : MaterialPtr) :
    ((t.SetMaterial cerr input).hasThrown = true ↔ input.length ≠ t.nComp) ∧
    (input.length ≠ t.nComp → (t.SetMaterial cerr input).state.1 = t) ∧
    (input.length = t.nComp →
      (t.SetMaterial cerr input).hasThrown = false ∧
      (t.SetMaterial cerr input).state.1 = { t with materials := input } ∧
      (t.SetMaterial cerr input).state.1.materials = input) ∧
    (t.nComp = 0 →
      t.SetMaterial cerr [] = .returned () ({ t with materials := [] }, cerr ++ ["SetMaterial"])) ∧
    (t.SetMaterial_one cerr m).hasThrown = false ∧
    (t.SetMaterial_one cerr m).state.1 = { t with materials := List.replicate t.nComp m } ∧
    (t.SetMaterial_one cerr m).state.1.materials = List.replicate t.nComp m := by
  have hone : t.SetMaterial_one cerr m
      = .returned ()
          ({ t with materials := List.replicate t.nComp m },
            if t.nComp = 0 then cerr ++ ["SetMaterial"] else cerr) := by
    unfold DEMClumpTemplate.SetMaterial_one
    rw [SetMaterial_eq, if_neg (by simp)]
  refine ⟨?_, ?_, ?_, ?_, ?_, ?_, ?_⟩
  · rw [SetMaterial_eq]
    by_cases hlen : input.length ≠ t.nComp
    · rw [if_pos hlen]
      exact ⟨fun _ => hlen, fun _ => rfl⟩
    · rw [if_neg hlen]
      exact ⟨fun hf => absurd hf (by simp [Outcome.hasThrown]), fun hne => absurd hne hlen⟩
  · intro hlen
    rw [SetMaterial_eq, if_pos hlen]
    rfl
  · intro hlen
    rw [SetMaterial_eq, if_neg (not_not.mpr hlen)]
    exact ⟨rfl, rfl, rfl⟩
  · intro hzero
    rw [SetMaterial_eq, if_neg (by simp [hzero]), if_pos hzero]
  · rw [hone]
    rfl
  · rw [hone]
    rfl
  · rw [hone]
    rfl

/-- C14. In exact arithmetic `Scale(s)` returns with every radius and every
coordinate of every `relPos` multiplied by `s`, `mass` and `volume` multiplied
by `s^3`, every component of `MOI` multiplied by `s^5`, and with `nComp`,
`materials`, the name, `mark`, `isBigClump` and the number of radii and of
positions unchanged. -/
theorem Scale_multiplies {F : Type} [Monoid F] (t : DEMClumpTemplate F) (s : F) :
    (t.Scale s).hasThrown = false ∧
    (t.Scale s).state.radii = t.radii.map (fun rad => rad * s) ∧
    (t.Scale s).state.relPos = t.relPos.map (fun pos => ⟨pos.x * s, pos.y * s, pos.z * s⟩) ∧
    (t.Scale s).state.mass = t.mass * s ^ 3 ∧
    (t.Scale s).state.volume = t.volume * s ^ 3 ∧
    (t.Scale s).state.MOI = ⟨t.MOI.x * s ^ 5, t.MOI.y * s ^ 5, t.MOI.z * s ^ 5⟩ ∧
    (t.Scale s).state.nComp = t.nComp ∧
    (t.Scale s).state.materials = t.materials ∧
    (t.Scale s).state.m_name = t.m_name ∧
    (t.Scale s).state.mark = t.mark ∧
    (t.Scale s).state.isBigClump = t.isBigClump ∧
    (t.Scale s).state.radii.length = t.radii.length ∧
    (t.Scale s).state.relPos.length = t.relPos.length := by
  have h3 : s * s * s = s ^ 3 := by
    rw [pow_succ, pow_succ, pow_one]
  have h5 : s * s * s * s * s = s ^ 5 := by
    rw [pow_succ, pow_succ, pow_succ, pow_succ, pow_one]
  refine ⟨rfl, rfl, rfl, ?_, ?_, ?_, rfl, rfl, rfl, rfl, rfl, ?_, ?_⟩
  · simp only [DEMClumpTemplate.Scale, Outcome.state, h3]
  · simp only [DEMClumpTemplate.Scale, Outcome.state, h3]
  · simp only [DEMClumpTemplate.Scale, Outcome.state, float3.mulAssign, h5]
  · simp only [DEMClumpTemplate.Scale, Outcome.state, List.length_map]
  · simp only [DEMClumpTemplate.Scale, Outcome.state, List.length_map]

/-! ## Bin-size control state and the drum demo -/

/-- C25. The default bin-size control state is within its documented ranges:
`binChangeRateAcc` lies in (0, 1], `binCurrentChangeRate` is 0 and does not
exceed `binTopChangeRate`, `binChangeObserveSteps` is at least 1, both safety
fractions lie strictly between 0 and 1, and `numBins` and `avgCntsPerSphere`
start at 0. -/
theorem kTStateParams_defaults_in_range (maxSph maxTri : Nat) :
    0 < (kTStateParams.construct maxSph maxTri).binChangeRateAcc ∧
    (kTStateParams.construct maxSph maxTri).binChangeRateAcc ≤ 1 ∧
    (kTStateParams.construct maxSph maxTri).binCurrentChangeRate = 0 ∧
    (kTStateParams.construct maxSph maxTri).binCurrentChangeRate
      ≤ (kTStateParams.construct maxSph maxTri).binTopChangeRate ∧
    1 ≤ (kTStateParams.construct maxSph maxTri).binChangeObserveSteps ∧
    0 < (kTStateParams.construct maxSph maxTri).binChangeUpperSafety ∧
    (kTStateParams.construct maxSph maxTri).binChangeUpperSafety < 1 ∧
    0 < (kTStateParams.construct maxSph maxTri).binChangeLowerSafety ∧
    (kTStateParams.construct maxSph maxTri).binChangeLowerSafety < 1 ∧
    (kTStateParams.construct maxSph maxTri).numBins = 0 ∧
    (kTStateParams.construct maxSph maxTri).avgCntsPerSphere = 0 := by
  simp only [kTStateParams.construct]
  norm_num

/-- C24, the code at the failing input. In `runDEME` the vector `angular` has
one element, so of the three reads `angular[0]`, `angular[1]`, `angular[2]`
only the first is within the vector: the other two are out of bounds. -/
theorem runDEME_angular_reads_out_of_bounds :
    runDEME_angular.length = 1 ∧
    runDEME_angularReads = [0, 1, 2] ∧
    (vectorRead runDEME_angular 0).isSome = true ∧
    vectorRead runDEME_angular 1 = none ∧
    vectorRead runDEME_angular 2 = none ∧
    runDEME_angularReads.map (fun i => decide (i < runDEME_angular.length))
      = [true, false, false] := by
  refine ⟨rfl, rfl, rfl, rfl, rfl, ?_⟩
  simp [runDEME_angularReads, runDEME_angular]

/-! ## Tracked resize -/

theorem size_t_sub_modEq (a b : Nat) (hb : b < 2 ^ 64) :
    ((size_t_sub a b : Nat) : ℤ) ≡ (a : ℤ) - b [ZMOD 2 ^ 64] := by
  unfold size_t_sub
  rw [Nat.mod_eq_of_lt hb]
  have hcast : ((a + (2 ^ 64 - b) : Nat) : ℤ) = (a : ℤ) - b + 2 ^ 64 := by
    rw [Nat.cast_add, Nat.cast_sub (Nat.le_of_lt hb)]
    push_cast
    ring
  have hmod : (((a + (2 ^ 64 - b)) % 2 ^ 64 : Nat) : ℤ)
      = ((a : ℤ) - b + 2 ^ 64) % 2 ^ 64 := by
    rw [← hcast]
    norm_cast
  rw [hmod]
  exact (Int.mod_modEq _ _).trans (by
    show ((a : ℤ) - b + 2 ^ 64) % 2 ^ 64 = ((a : ℤ) - b) % 2 ^ 64
    exact Int.add_emod_self)

theorem tracked_counter_eq (item old new counter : Nat) (hold : old < 2 ^ 64) :
    ((size_t_add counter (size_t_mul item (size_t_sub new old)) : Nat) : ℤ)
      = ((counter : ℤ) + item * ((new : ℤ) - old)) % 2 ^ 64 := by
  have hsub := size_t_sub_modEq new old hold
  have hmul : ((size_t_mul item (size_t_sub new old) : Nat) : ℤ)
      ≡ (item : ℤ) * ((new : ℤ) - old) [ZMOD 2 ^ 64] := by
    have hcast : ((size_t_mul item (size_t_sub new old) : Nat) : ℤ)
        = ((item : ℤ) * (size_t_sub new old : Nat)) % 2 ^ 64 := by
      unfold size_t_mul
      norm_cast
    rw [hcast]
    exact (Int.mod_modEq _ _).trans (Int.ModEq.mul_left _ hsub)
  have hadd : ((size_t_add counter (size_t_mul item (size_t_sub new old)) : Nat) : ℤ)
      = ((counter : ℤ) + (size_t_mul item (size_t_sub new old) : Nat)) % 2 ^ 64 := by
    unfold size_t_add
    norm_cast
  rw [hadd]
  exact Int.ModEq.add_left _ hmul

theorem tracked_resize_snd {α : Type} (item_size : Nat) (vec : List α) (counter newsize : Nat)
    (val : α) :
    (DEME_TRACKED_RESIZE item_size vec counter newsize val).2
      = size_t_add counter (size_t_mul item_size (size_t_sub newsize vec.length)) := by
  simp only [DEME_TRACKED_RESIZE, length_vectorResize]

/-- C23. Tracked-resize accounting: for a vector and a counter within the range
of `size_t`, after `DEME_TRACKED_RESIZE` the vector has the new size and the
counter `m_approx_bytes_used` is
`(old counter + item_size * (new_size - old_size)) mod 2^64`, the difference
being taken in the integers; a shrinking resize that the counter covers
decreases it by exactly `item_size * (old_size - new_size)`; a resize followed
by a resize back to the original size restores the counter; and
`DEME_TRACKED_RESIZE_FLOAT` is the same with `item_size = sizeof(float)`. -/
theorem tracked_resize_counter {α : Type} (item_size : Nat) (vec : List α)
    (counter newsize : Nat) (val : α) (hvec : vec.length < 2 ^ 64) (hnew : newsize < 2 ^ 64)
    (hcounter : counter < 2 ^ 64) :
    (DEME_TRACKED_RESIZE item_size vec counter newsize val).1.length = newsize ∧
    (((DEME_TRACKED_RESIZE item_size vec counter newsize val).2 : Nat) : ℤ)
      = ((counter : ℤ) + item_size * ((newsize : ℤ) - vec.length)) % 2 ^ 64 ∧
    (newsize ≤ vec.length → item_size * (vec.length - newsize) ≤ counter →
      (DEME_TRACKED_RESIZE item_size vec counter newsize val).2
        = counter - item_size * (vec.length - newsize)) ∧
    (DEME_TRACKED_RESIZE item_size (DEME_TRACKED_RESIZE item_size vec counter newsize val).1
        (DEME_TRACKED_RESIZE item_size vec counter newsize val).2 vec.length val).2 = counter ∧
    DEME_TRACKED_RESIZE_FLOAT vec counter newsize val
      = DEME_TRACKED_RESIZE sizeof_float vec counter newsize val ∧
    sizeof_float = 4 := by
  have hfirst : (((DEME_TRACKED_RESIZE item_size vec counter newsize val).2 : Nat) : ℤ)
      = ((counter : ℤ) + item_size * ((newsize : ℤ) - vec.length)) % 2 ^ 64 := by
    rw [tracked_resize_snd]
    exact tracked_counter_eq item_size vec.length newsize counter hvec
  have hlen : (DEME_TRACKED_RESIZE item_size vec counter newsize val).1.length = newsize := by
    simp only [DEME_TRACKED_RESIZE, length_vectorResize]
  refine ⟨hlen, hfirst, ?_, ?_, rfl, rfl⟩
  · intro hshrink hcover
    have hval : (counter : ℤ) + item_size * ((newsize : ℤ) - vec.length)
        = ((counter - item_size * (vec.length - newsize) : Nat) : ℤ) := by
      rw [Nat.cast_sub hcover, Nat.cast_mul, Nat.cast_sub hshrink]
      ring
    have hlt : ((counter - item_size * (vec.length - newsize) : Nat) : ℤ) < 2 ^ 64 := by
      have hle : counter - item_size * (vec.length - newsize) < 2 ^ 64 := by omega
      exact_mod_cast hle
    rw [hval, Int.emod_eq_of_lt (Int.natCast_nonneg _) hlt] at hfirst
    exact_mod_cast hfirst
  · have hsecond : (((DEME_TRACKED_RESIZE item_size
          (DEME_TRACKED_RESIZE item_size vec counter newsize val).1
          (DEME_TRACKED_RESIZE item_size vec counter newsize val).2 vec.length val).2 : Nat) : ℤ)
        = (((DEME_TRACKED_RESIZE item_size vec counter newsize val).2 : Nat)
            + item_size * ((vec.length : ℤ) - newsize)) % 2 ^ 64 := by
      rw [tracked_resize_snd, hlen]
      exact tracked_counter_eq item_size newsize vec.length _ hnew
    rw [hfirst, Int.emod_add_emod] at hsecond
    have hzero : (counter : ℤ) + item_size * ((newsize : ℤ) - vec.length)
        + item_size * ((vec.length : ℤ) - newsize) = counter := by ring
    have hlt : (counter : ℤ) < 2 ^ 64 := by exact_mod_cast hcounter
    rw [hzero, Int.emod_eq_of_lt (Int.natCast_nonneg _) hlt] at hsecond
    exact_mod_cast hsecond

/-- Witness of C23: a vector of three `float` (item size 4) is shrunk to one
element with the counter at 100, which becomes 92. -/
theorem tracked_resize_counter_witness :
    ([1, 2, 3] : List Int).length < 2 ^ 64 ∧ 1 < 2 ^ 64 ∧ 100 < 2 ^ 64 ∧
    (DEME_TRACKED_RESIZE 4 ([1, 2, 3] : List Int) 100 1 0).2 = 100 - 4 * (3 - 1) ∧
    (DEME_TRACKED_RESIZE 4 ([1, 2, 3] : List Int) 100 1 0).2 = 92 :=
  ⟨by decide, by decide, by decide,
    (tracked_resize_counter 4 ([1, 2, 3] : List Int) 100 1 0 (by decide) (by decide)
      (by decide)).2.2.1 (by decide) (by decide),
    by decide⟩

/-! ## Clump template: the component-count invariant -/

theorem foldl_readRow {F : Type} (rows : List (float3 F × F)) (t : DEMClumpTemplate F)
    (count : Nat) (hcount : count < 2 ^ 32) :
    rows.foldl DEMClumpTemplate.readRow (t, count)
      = ({ t with
            radii := t.radii ++ rows.map (fun row => row.2),
            relPos := t.relPos ++ rows.map (fun row => row.1) },
          (count + rows.length) % 2 ^ 32) := by
  induction rows generalizing t count with
  | nil =>
    simp only [List.foldl_nil, List.map_nil, List.append_nil, List.length_nil, Nat.add_zero,
      Nat.mod_eq_of_lt hcount]
  | cons row rest ih =>
    have step : (row :: rest).foldl DEMClumpTemplate.readRow (t, count)
        = rest.foldl DEMClumpTemplate.readRow
            ({ t with radii := t.radii ++ [row.2], relPos := t.relPos ++ [row.1] },
              (count + 1) % 2 ^ 32) := rfl
    rw [step, ih _ _ (Nat.mod_lt _ (by norm_num))]
    simp only [List.map_cons, List.append_assoc, List.singleton_append, List.length_cons,
      Nat.mod_add_mod]
    congr 1
    omega

theorem ReadComponentFromFile_eq {F : Type} (t : DEMClumpTemplate F) (file : CsvRead F)
    (hend : file.failure = none) :
    t.ReadComponentFromFile file
      = .returned 0
          { t with
            radii := t.radii ++ file.rows.map (fun row => row.2),
            relPos := t.relPos ++ file.rows.map (fun row => row.1),
            nComp := (t.nComp + file.rows.length % 2 ^ 32) % 2 ^ 32 } := by
  unfold DEMClumpTemplate.ReadComponentFromFile
  simp only [hend, foldl_readRow file.rows t 0 (by norm_num), Nat.zero_add]

theorem template_checked_state {F : Type} (P : DEMClumpTemplate F → Prop)
    (t : DEMClumpTemplate F) (check3 check4 : Option Exn) (a3 : Option (float3 F))
    (a4 : Option (float4 F)) (k : float3 F → float4 F → Outcome Unit (DEMClumpTemplate F))
    (o : Outcome Unit (DEMClumpTemplate F)) (ht : P t) (hk : ∀ v q, P (k v q).state)
    (hrun : (match check3 with
        | some e => some (Outcome.threw e t)
        | none =>
          match check4 with
          | some e => some (Outcome.threw e t)
          | none =>
            match a3, a4 with
            | some v, some q => some (k v q)
            | _, _ => none) = some o) :
    P o.state := by
  cases check3 with
  | some e =>
    simp only [Option.some.injEq] at hrun
    subst hrun
    exact ht
  | none =>
    cases check4 with
    | some e =>
      simp only [Option.some.injEq] at hrun
      subst hrun
      exact ht
    | none =>
      cases a3 with
      | none => simp at hrun
      | some v =>
        cases a4 with
        | none => simp at hrun
        | some q =>
          simp only [Option.some.injEq] at hrun
          subst hrun
          exact hk v q

/-- C21, counterexample. A template with `2^32 - 1` components satisfies
`radii.size() == relPos.size() == nComp`; after `ReadComponentFromFile` has
read one row and returned, `radii` has `2^32` elements and the `unsigned int`
`nComp` has wrapped to 0, so the invariant no longer holds. -/
theorem ReadComponentFromFile_wraps_nComp :
    fullTemplate.countsAgree ∧ oneRowFile.rows.length = 1 ∧ oneRowFile.failure = none ∧
    (fullTemplate.ReadComponentFromFile oneRowFile).hasThrown = false ∧
    (fullTemplate.ReadComponentFromFile oneRowFile).state.nComp = 0 ∧
    (fullTemplate.ReadComponentFromFile oneRowFile).state.radii.length = 2 ^ 32 ∧
    ¬ (fullTemplate.ReadComponentFromFile oneRowFile).state.countsAgree := by
  have hfull : fullTemplate.countsAgree := by
    unfold DEMClumpTemplate.countsAgree fullTemplate
    exact ⟨List.length_replicate _ _, List.length_replicate _ _⟩
  have hcall := ReadComponentFromFile_eq fullTemplate oneRowFile rfl
  have hradii : (fullTemplate.ReadComponentFromFile oneRowFile).state.radii.length = 2 ^ 32 := by
    rw [hcall]
    simp only [Outcome.state, List.length_append, List.length_map]
    rw [hfull.1]
    rfl
  have hcomp : (fullTemplate.ReadComponentFromFile oneRowFile).state.nComp = 0 := by
    rw [hcall]
    rfl
  refine ⟨hfull, rfl, rfl, ?_, hcomp, hradii, ?_⟩
  · rw [hcall]
    rfl
  · intro hagree
    have hlen := hagree.1
    rw [hradii, hcomp] at hlen
    exact absurd hlen (by norm_num)

/-- C21, amended. On a template with `radii.size() == relPos.size() == nComp`:
a `ReadComponentFromFile` that reads the file to its end, the number of
components staying below `2^32`, returns 0, keeps the existing components as
a prefix, appends one radius and one position per row read, adds the number
of rows to `nComp`, and the invariant holds after it; `Scale`, `Move` and
`InformCentroidPrincipal` (both overloads) change neither `nComp` nor the
length of `radii`, `relPos` or `materials`, so the invariant holds after them
as well. -/
theorem component_counts_preserved {F : Type} [Mul F] (h : HostSideHelpers F)
    (fr : FrameTransforms F) (t : DEMClumpTemplate F) (file : CsvRead F) (s : F)
    (v : float3 F) (q : float4 F) (vs qs : List F) (hinv : t.countsAgree) :
    (file.failure = none → t.nComp + file.rows.length < 2 ^ 32 →
      t.ReadComponentFromFile file
          = .returned 0
              { t with
                radii := t.radii ++ file.rows.map (fun row => row.2),
                relPos := t.relPos ++ file.rows.map (fun row => row.1),
                nComp := t.nComp + file.rows.length } ∧
        (t.ReadComponentFromFile file).state.countsAgree) ∧
    ((t.Scale s).state.countsAgree ∧ (t.Scale s).state.nComp = t.nComp ∧
      (t.Scale s).state.radii.length = t.radii.length ∧
      (t.Scale s).state.relPos.length = t.relPos.length ∧
      (t.Scale s).state.materials.length = t.materials.length) ∧
    ((t.Move fr v q).state.countsAgree ∧ (t.Move fr v q).state.nComp = t.nComp ∧
      (t.Move fr v q).state.radii.length = t.radii.length ∧
      (t.Move fr v q).state.relPos.length = t.relPos.length ∧
      (t.Move fr v q).state.materials.length = t.materials.length) ∧
    ((t.InformCentroidPrincipal fr v q).state.countsAgree ∧
      (t.InformCentroidPrincipal fr v q).state.nComp = t.nComp ∧
      (t.InformCentroidPrincipal fr v q).state.radii.length = t.radii.length ∧
      (t.InformCentroidPrincipal fr v q).state.relPos.length = t.relPos.length ∧
      (t.InformCentroidPrincipal fr v q).state.materials.length = t.materials.length) ∧
    (∀ o, t.Move_floats h fr vs qs = some o →
      o.state.countsAgree ∧ o.state.nComp = t.nComp ∧
        o.state.radii.length = t.radii.length ∧ o.state.relPos.length = t.relPos.length ∧
        o.state.materials.length = t.materials.length) ∧
    (∀ o, t.InformCentroidPrincipal_floats h fr vs qs = some o →
      o.state.countsAgree ∧ o.state.nComp = t.nComp ∧
        o.state.radii.length = t.radii.length ∧ o.state.relPos.length = t.relPos.length ∧
        o.state.materials.length = t.materials.length) := by
  obtain ⟨hradii, hrel⟩ := hinv
  have hmove : ∀ v q, (t.Move fr v q).state.countsAgree ∧ (t.Move fr v q).state.nComp = t.nComp ∧
      (t.Move fr v q).state.radii.length = t.radii.length ∧
      (t.Move fr v q).state.relPos.length = t.relPos.length ∧
      (t.Move fr v q).state.materials.length = t.materials.length := by
    intro v q
    simp [DEMClumpTemplate.Move, Outcome.state, DEMClumpTemplate.countsAgree, hradii, hrel]
  have hinform : ∀ v q, (t.InformCentroidPrincipal fr v q).state.countsAgree ∧
      (t.InformCentroidPrincipal fr v q).state.nComp = t.nComp ∧
      (t.InformCentroidPrincipal fr v q).state.radii.length = t.radii.length ∧
      (t.InformCentroidPrincipal fr v q).state.relPos.length = t.relPos.length ∧
      (t.InformCentroidPrincipal fr v q).state.materials.length = t.materials.length := by
    intro v q
    simp [DEMClumpTemplate.InformCentroidPrincipal, Outcome.state, DEMClumpTemplate.countsAgree, hradii, hrel]
  refine ⟨?_, ?_, hmove v q, hinform v q, ?_, ?_⟩
  · intro hend hfit
    have hcall : t.ReadComponentFromFile file
        = .returned 0
            { t with
              radii := t.radii ++ file.rows.map (fun row => row.2),
              relPos := t.relPos ++ file.rows.map (fun row => row.1),
              nComp := t.nComp + file.rows.length } := by
      rw [ReadComponentFromFile_eq t file hend]
      have hrows : file.rows.length % 2 ^ 32 = file.rows.length :=
        Nat.mod_eq_of_lt (by omega)
      rw [hrows, Nat.mod_eq_of_lt hfit]
    refine ⟨hcall, ?_⟩
    rw [hcall]
    simp only [Outcome.state, DEMClumpTemplate.countsAgree, List.length_append, List.length_map]
    omega
  · simp [DEMClumpTemplate.Scale, Outcome.state, DEMClumpTemplate.countsAgree, hradii, hrel]
  · intro o hrun
    exact template_checked_state
      (fun t1 => t1.countsAgree ∧ t1.nComp = t.nComp ∧ t1.radii.length = t.radii.length ∧
        t1.relPos.length = t.relPos.length ∧ t1.materials.length = t.materials.length)
      t _ _ _ _ _ o ⟨⟨hradii, hrel⟩, rfl, rfl, rfl, rfl⟩ hmove hrun
  · intro o hrun
    exact template_checked_state
      (fun t1 => t1.countsAgree ∧ t1.nComp = t.nComp ∧ t1.radii.length = t.radii.length ∧
        t1.relPos.length = t.relPos.length ∧ t1.materials.length = t.materials.length)
      t _ _ _ _ _ o ⟨⟨hradii, hrel⟩, rfl, rfl, rfl, rfl⟩ hinform hrun

/-! ## Formatting of byte counts -/

theorem floatOfNat_small (n : Nat) (h : n < 2 ^ 24) : floatOfNat n = n := by
  unfold floatOfNat
  rw [if_pos h]

theorem floatOfNat_large (n : Nat) (h : 2 ^ 24 ≤ n) :
    floatOfNat n =
      if n % 2 ^ (Nat.log2 n - 23) < 2 ^ (Nat.log2 n - 23 - 1) ∨
          (n % 2 ^ (Nat.log2 n - 23) = 2 ^ (Nat.log2 n - 23 - 1) ∧
            n / 2 ^ (Nat.log2 n - 23) % 2 = 0) then
        n / 2 ^ (Nat.log2 n - 23) * 2 ^ (Nat.log2 n - 23)
      else (n / 2 ^ (Nat.log2 n - 23) + 1) * 2 ^ (Nat.log2 n - 23) := by
  unfold floatOfNat
  rw [if_neg (Nat.not_lt.mpr h)]

theorem log2_ge_24 (n : Nat) (h : 2 ^ 24 ≤ n) : 24 ≤ Nat.log2 n :=
  (Nat.le_log2 (by omega)).mpr h

theorem floatOfNat_ge (n : Nat) (h : 2 ^ 24 ≤ n) : 2 ^ Nat.log2 n ≤ floatOfNat n := by
  have hlog := log2_ge_24 n h
  have hn : n ≠ 0 := by omega
  have hpow : 2 ^ Nat.log2 n = 2 ^ 23 * 2 ^ (Nat.log2 n - 23) := by
    rw [← Nat.pow_add]
    congr 1
    omega
  have hq : 2 ^ 23 ≤ n / 2 ^ (Nat.log2 n - 23) := by
    rw [Nat.le_div_iff_mul_le (Nat.two_pow_pos _), ← hpow]
    exact Nat.log2_self_le hn
  rw [floatOfNat_large n h, hpow]
  split
  · exact Nat.mul_le_mul_right _ hq
  · exact Nat.mul_le_mul_right _ (by omega)

theorem floatOfNat_le (n : Nat) (h : 2 ^ 24 ≤ n) : floatOfNat n ≤ 2 ^ (Nat.log2 n + 1) := by
  have hlog := log2_ge_24 n h
  have hpow : 2 ^ (Nat.log2 n + 1) = 2 ^ 24 * 2 ^ (Nat.log2 n - 23) := by
    rw [← Nat.pow_add]
    congr 1
    omega
  have hq : n / 2 ^ (Nat.log2 n - 23) < 2 ^ 24 := by
    rw [Nat.div_lt_iff_lt_mul (Nat.two_pow_pos _), ← hpow]
    exact Nat.lt_log2_self
  rw [floatOfNat_large n h, hpow]
  split
  · exact Nat.mul_le_mul_right _ (by omega)
  · exact Nat.mul_le_mul_right _ (by omega)

theorem floatOfNat_gt_of_lt (n T : Nat) (hT : T < 2 ^ 24) : T < floatOfNat n ↔ T < n := by
  rcases Nat.lt_or_ge n (2 ^ 24) with h | h
  · rw [floatOfNat_small n h]
  · have hge := floatOfNat_ge n h
    have hlog := log2_ge_24 n h
    have hpow : 2 ^ 24 ≤ 2 ^ Nat.log2 n := Nat.pow_le_pow_right (by norm_num) hlog
    constructor
    · intro _
      omega
    · intro _
      omega

theorem floatOfNat_gt_gibi (n : Nat) : 2 ^ 30 < floatOfNat n ↔ 2 ^ 30 + 64 < n := by
  rcases Nat.lt_or_ge n (2 ^ 24) with h24 | h24
  · rw [floatOfNat_small n h24]
    constructor <;> intro _ <;> omega
  · have hn : n ≠ 0 := by omega
    rcases Nat.lt_or_ge n (2 ^ 30) with h30 | h30
    · have hlog : Nat.log2 n < 30 := (Nat.log2_lt hn).mpr h30
      have hle := floatOfNat_le n h24
      have hpow : 2 ^ (Nat.log2 n + 1) ≤ 2 ^ 30 := Nat.pow_le_pow_right (by norm_num) hlog
      constructor <;> intro _ <;> omega
    · rcases Nat.lt_or_ge n (2 ^ 31) with h31 | h31
      · have hlog : Nat.log2 n = 30 := by
          have h1 : Nat.log2 n < 31 := (Nat.log2_lt hn).mpr h31
          have h2 : 30 ≤ Nat.log2 n := (Nat.le_log2 hn).mpr h30
          omega
        rw [floatOfNat_large n h24, hlog]
        norm_num
        split <;> constructor <;> intro _ <;> omega
      · have hlog : 31 ≤ Nat.log2 n := (Nat.le_log2 hn).mpr h31
        have hge := floatOfNat_ge n h24
        have hpow : 2 ^ 31 ≤ 2 ^ Nat.log2 n := Nat.pow_le_pow_right (by norm_num) hlog
        constructor <;> intro _ <;> omega

theorem pretty_format_bytes_eq (n : Nat) :
    pretty_format_bytes n =
      if 2 ^ 30 + 64 < n then .GiB ((floatOfNat n : ℚ) / 2 ^ 30)
      else if 2 ^ 20 < n then .MiB ((floatOfNat n : ℚ) / 2 ^ 20)
      else if 2 ^ 10 < n then .KiB ((floatOfNat n : ℚ) / 2 ^ 10)
      else .B n := by
  have hg : ((floatOfNat n : ℚ) / ((1024 * 1024 * 1024 : Nat) : ℚ) > 1) ↔ 2 ^ 30 + 64 < n := by
    rw [gt_iff_lt, one_lt_div (by norm_num), Nat.cast_lt, ← floatOfNat_gt_gibi]
    norm_num
  have hm : ((floatOfNat n : ℚ) / ((1024 * 1024 : Nat) : ℚ) > 1) ↔ 2 ^ 20 < n := by
    rw [gt_iff_lt, one_lt_div (by norm_num), Nat.cast_lt, ← floatOfNat_gt_of_lt n (2 ^ 20) (by norm_num)]
    norm_num
  have hk : ((floatOfNat n : ℚ) / ((1024 : Nat) : ℚ) > 1) ↔ 2 ^ 10 < n := by
    rw [gt_iff_lt, one_lt_div (by norm_num), Nat.cast_lt, ← floatOfNat_gt_of_lt n (2 ^ 10) (by norm_num)]
    norm_num
  unfold pretty_format_bytes
  simp only [hg, hm, hk]
  norm_num


theorem floatOfNat_two_pow_30_succ : floatOfNat (2 ^ 30 + 1) = 2 ^ 30 := by
  have hlog : Nat.log2 (2 ^ 30 + 1) = 30 := by
    have h1 : Nat.log2 (2 ^ 30 + 1) < 31 := (Nat.log2_lt (by norm_num)).mpr (by norm_num)
    have h2 : 30 ≤ Nat.log2 (2 ^ 30 + 1) := (Nat.le_log2 (by norm_num)).mpr (by norm_num)
    omega
  rw [floatOfNat_large _ (by norm_num), hlog]
  norm_num

/-- C22, counterexample. The byte count `2^30 + 1` exceeds `2^30`, but its
conversion to `float` is `2^30`, so `gibival` is 1, not above 1, and the text
is 1024 followed by " MiB", not a text that ends in " GiB". -/
theorem pretty_format_bytes_above_gibi_is_MiB :
    2 ^ 30 < 2 ^ 30 + 1 ∧
    floatOfNat (2 ^ 30 + 1) = 2 ^ 30 ∧
    pretty_format_bytes (2 ^ 30 + 1) = .MiB 1024 ∧
    (pretty_format_bytes (2 ^ 30 + 1)).unit = " MiB" ∧
    (pretty_format_bytes (2 ^ 30 + 1)).unit ≠ " GiB" := by
  have hcall : pretty_format_bytes (2 ^ 30 + 1) = .MiB 1024 := by
    rw [pretty_format_bytes_eq, if_neg (by norm_num), if_pos (by norm_num),
      floatOfNat_two_pow_30_succ]
    norm_num
  refine ⟨by norm_num, floatOfNat_two_pow_30_succ, hcall, ?_, ?_⟩
  · rw [hcall]
    rfl
  · rw [hcall]
    decide

theorem pretty_format_bytes_unit (n : Nat) :
    (pretty_format_bytes n).unit =
      if 2 ^ 30 + 64 < n then " GiB"
      else if 2 ^ 20 < n then " MiB"
      else if 2 ^ 10 < n then " KiB"
      else " B" := by
  rw [pretty_format_bytes_eq]
  split_ifs <;> rfl

/-- C22, amended. `pretty_format_bytes` selects its unit by strict thresholds
on the byte count `n` converted to `float`: the text is the decimal digits of
`n` followed by " B" if and only if `n <= 2^10`; it ends in " KiB" if and only
if `2^10 < n <= 2^20`; in " MiB" if and only if `2^20 < n <= 2^30 + 64`; and in
" GiB" if and only if `n > 2^30 + 64`. Exactly 1024, `2^20` and `2^30` bytes
are reported as "1024 B", as the float 1024 with " KiB" and as the float 1024
with " MiB". -/
theorem pretty_format_bytes_units (n : Nat) :
    (pretty_format_bytes n = .B n ↔ n ≤ 2 ^ 10) ∧
    ((pretty_format_bytes n).unit = " B" ↔ n ≤ 2 ^ 10) ∧
    ((pretty_format_bytes n).unit = " KiB" ↔ 2 ^ 10 < n ∧ n ≤ 2 ^ 20) ∧
    ((pretty_format_bytes n).unit = " MiB" ↔ 2 ^ 20 < n ∧ n ≤ 2 ^ 30 + 64) ∧
    ((pretty_format_bytes n).unit = " GiB" ↔ 2 ^ 30 + 64 < n) ∧
    (∀ showFloat, n ≤ 2 ^ 10 → (pretty_format_bytes n).str showFloat = toString n ++ " B") ∧
    (∀ showFloat, (pretty_format_bytes 1024).str showFloat = "1024 B") ∧
    pretty_format_bytes (2 ^ 20) = .KiB 1024 ∧
    pretty_format_bytes (2 ^ 30) = .MiB 1024 := by
  have hB : ∀ m : Nat, m ≤ 2 ^ 10 → pretty_format_bytes m = .B m := by
    intro m hm
    rw [pretty_format_bytes_eq, if_neg (by omega), if_neg (by omega), if_neg (by omega)]
  refine ⟨?_, ?_, ?_, ?_, ?_, ?_, ?_, ?_, ?_⟩
  · constructor
    · intro hcall
      by_contra hn
      rw [pretty_format_bytes_eq] at hcall
      split at hcall
      · cases hcall
      · split at hcall
        · cases hcall
        · rw [if_pos (by omega)] at hcall
          cases hcall
    · exact hB n
  · rw [pretty_format_bytes_unit]
    split_ifs <;> simp <;> omega
  · rw [pretty_format_bytes_unit]
    split_ifs <;> simp <;> omega
  · rw [pretty_format_bytes_unit]
    split_ifs <;> simp <;> omega
  · rw [pretty_format_bytes_unit]
    split_ifs <;> simp <;> omega
  · intro showFloat hn
    rw [hB n hn]
    rfl
  · intro showFloat
    rw [hB 1024 (by norm_num)]
    show toString (1024 : Nat) ++ " B" = "1024 B"
    decide
  · rw [pretty_format_bytes_eq, if_neg (by norm_num), if_neg (by norm_num),
      if_pos (by norm_num), floatOfNat_small _ (by norm_num)]
    norm_num
  · rw [pretty_format_bytes_eq, if_neg (by norm_num), if_pos (by norm_num),
      floatOfNat_large _ (by norm_num)]
    have hlog : Nat.log2 (2 ^ 30) = 30 := by
      have h1 : Nat.log2 (2 ^ 30) < 31 := (Nat.log2_lt (by norm_num)).mpr (by norm_num)
      have h2 : 30 ≤ Nat.log2 (2 ^ 30) := (Nat.le_log2 (by norm_num)).mpr (by norm_num)
      omega
    rw [hlog]
    norm_num

/-- Witness of C21, amended: two rows are read into a template of two
components. -/
theorem component_counts_preserved_witness :
    twoSphereTemplate.countsAgree ∧ twoRowFile.failure = none ∧
    twoSphereTemplate.nComp + twoRowFile.rows.length < 2 ^ 32 ∧
    (twoSphereTemplate.ReadComponentFromFile twoRowFile).state.countsAgree ∧
    (twoSphereTemplate.ReadComponentFromFile twoRowFile).state.nComp = 4 ∧
    (twoSphereTemplate.ReadComponentFromFile twoRowFile).state.radii = [1, 2, 3, 4] :=
  ⟨⟨rfl, rfl⟩, rfl, by decide,
    ((component_counts_preserved (HostSideHelpers.bySize Int) (FrameTransforms.identity Int)
      twoSphereTemplate twoRowFile 2 ⟨0, 0, 0⟩ ⟨0, 0, 0, 1⟩ [] [] ⟨rfl, rfl⟩).1 rfl
      (by decide)).2,
    by decide, by decide⟩

end deme
